import Mathlib

set_option maxRecDepth 100000
set_option linter.unusedVariables false

/-!
Shallow embedding of the trading execution core of the repository
(src/trading_app_main.py and src/mt5_manager.py) and proofs about it.

Modelling conventions, used throughout:
* Python floats are modelled as exact rationals (ℚ); Python `round` is
  round-half-to-even on the exact value (`pyRound`, `pyRoundTo`).
* `None` / missing optional values are modelled with `Option`.  An attribute
  read through `getattr(x, a, default)` whose default is an ordinary value is
  modelled as a plain field (a missing attribute is represented by the default
  value itself); a default of `float("inf")` (`volume_max`) and the
  `hasattr`-guarded `volume_digits` are modelled with `Option`.
* Calls into the MetaTrader5 library (account info, symbol info, ticks,
  order_check, order_send, last_error) are modelled as oracle fields of an
  `Mt5` state, since the library is external to the repository.
* Rendering a number into a log/note string is abstracted by `qStr`
  (Python's float formatting is not reproduced digit for digit); the same
  rendering is used everywhere a number is interpolated, so equalities
  between produced strings are preserved.
-/

/-- Python round-half-to-even of an exact rational to an integer, the
rounding used by the built-in `round(x)`.  Uses `Rat.floor` so that the
definition evaluates by kernel reduction. -/
def pyRound (q : ℚ) : ℤ :=
  let f := Rat.floor q
  let r := q - (f : ℚ)
  if r < 1/2 then f
  else if 1/2 < r then f + 1
  else if f % 2 = 0 then f else f + 1

theorem ratFloor_eq_floor (q : ℚ) : Rat.floor q = ⌊q⌋ := by
  refine le_antisymm ?_ ?_
  · exact Int.le_floor.mpr (Rat.le_floor.mp le_rfl)
  · exact Rat.le_floor.mpr (Int.floor_le q)

/-- Python `round(x, n)`: round to `n` decimal digits, half to even. -/
def pyRoundTo (q : ℚ) (n : ℕ) : ℚ :=
  (pyRound (q * 10 ^ n) : ℚ) / 10 ^ n

/-- Number of trailing zero decimal digits of `n` (fuel-bounded). -/
def trailingZeros (fuel : ℕ) (n : ℕ) : ℕ :=
  match fuel with
  | 0 => 0
  | f + 1 => if n % 10 = 0 ∧ 0 < n then trailingZeros f (n / 10) + 1 else 0

/-- Fallback volume-precision computation of `calculate_lot_size_advanced`
(src/trading_app_main.py lines 662-664): format the step with ten decimal
places, strip trailing zeros, and count the remaining fractional digits;
an empty fractional part yields 2. -/
def volumeDigitsFallback (step : ℚ) : ℕ :=
  let k := (pyRound (step * 10 ^ 10)).natAbs
  let frac := k % 10 ^ 10
  if frac = 0 then 2 else 10 - trailingZeros 10 frac

/-- Python truthiness of an optional string (`None` and `""` are falsy). -/
def pyTruthy : Option String → Bool
  | none => false
  | some s => s ≠ ""

/-- Python `str()` applied to an optional string (`None` prints as "None"). -/
def pyStr (o : Option String) : String := o.getD "None"

/-- Abstracted rendering of a rational number into a string, standing in for
Python's number formatting inside f-strings. -/
def qStr (q : ℚ) : String := toString q

/-- Account snapshot returned by the venue (`mt5.account_info()`). -/
structure AccountInfo where
  balance : ℚ
  currency : String
deriving DecidableEq

/-- Live tick returned by the venue (`mt5.symbol_info_tick`).  The optional
`spread` field models the `hasattr`/`isinstance(int)` probing in
`get_current_spread`. -/
structure Tick where
  bid : ℚ
  ask : ℚ
  spread : Option ℤ
deriving DecidableEq

/-- Symbol metadata returned by the venue (`mt5.symbol_info`).  Plain fields
carry the `getattr` default when the attribute is absent; `volume_max`
(default `float("inf")`), `volume_digits` (guarded by `hasattr`/`isinstance`)
and `currency_profit` (default: account currency) are `Option`s. -/
structure SymbolInfo where
  point : ℚ
  digits : ℕ
  spread : Option ℤ
  volume_min : ℚ
  volume_max : Option ℚ
  volume_step : ℚ
  volume_digits : Option ℕ
  trade_contract_size : ℚ
  currency_profit : Option String
deriving DecidableEq

/-- Result object of the venue's pre-trade validation (`mt5.order_check`). -/
structure OrderCheckResult where
  retcode : ℤ
  comment : String
deriving DecidableEq

/-- Result object of the venue's order submission (`mt5.order_send`). -/
structure OrderSendResult where
  retcode : ℤ
  deal : ℤ
  order : ℤ
  comment : String
deriving DecidableEq

/-- State of the MT5Manager plus oracles for the external MetaTrader5
library calls it makes (src/mt5_manager.py). -/
structure Mt5 where
  connected : Bool
  account : Option AccountInfo
  symbolInfo : String → Option SymbolInfo
  tick : String → Option Tick
  order_check : Option OrderCheckResult
  order_send : Option OrderSendResult
  last_error : ℤ × String

/-- MT5Manager.get_account_info (src/mt5_manager.py lines 126-130). -/
def get_account_info (m : Mt5) : Option AccountInfo :=
  if m.connected then m.account else none

/-- MT5Manager.get_symbol_info (src/mt5_manager.py lines 132-136). -/
def get_symbol_info (m : Mt5) (symbol : String) : Option SymbolInfo :=
  if m.connected then m.symbolInfo symbol else none

/-- MT5Manager.get_tick (src/mt5_manager.py lines 138-142). -/
def get_tick (m : Mt5) (symbol : String) : Option Tick :=
  if m.connected then m.tick symbol else none

/-- MT5Manager.get_current_spread (src/mt5_manager.py lines 144-165):
spread in points from the live tick when available and non-negative,
falling back to the symbol info's spread field, else `none`. -/
def get_current_spread (m : Mt5) (symbol : String) : Option ℤ :=
  if m.connected then
    let fromSymbolInfo :=
      match get_symbol_info m symbol with
      | some si =>
          match si.spread with
          | some sp => if 0 ≤ sp then some sp else none
          | none => none
      | none => none
    match get_tick m symbol with
    | some t =>
        match t.spread with
        | some sp => if 0 ≤ sp then some sp else fromSymbolInfo
        | none => fromSymbolInfo
    | none => fromSymbolInfo
  else none

/-- Cross-currency conversion rate of the lot computation
(src/trading_app_main.py lines 687-707): 1.0 when the symbol's profit
currency equals the account currency; otherwise prefer the direct
profit-to-account quote's bid, failing that the inverse of the
account-to-profit quote's ask, failing that the logged fallback 1.0. -/
def conversionRate (m : Mt5) (symbol_profit_currency account_currency : String) : ℚ :=
  if symbol_profit_currency = account_currency then 1
  else
    let fallbackRate : ℚ :=
      match get_tick m (account_currency ++ symbol_profit_currency) with
      | some t2 => if t2.ask > 0 then 1 / t2.ask else 1
      | none => 1
    match get_tick m (symbol_profit_currency ++ account_currency) with
    | some t1 => if t1.bid > 0 then t1.bid else fallbackRate
    | none => fallbackRate

theorem conversionRate_pos (m : Mt5) (p a : String) :
    0 < conversionRate m p a := by
  unfold conversionRate
  by_cases h : p = a
  · rw [if_pos h]
    norm_num
  · rw [if_neg h]
    dsimp only
    have hfall : 0 < (match get_tick m (a ++ p) with
        | some t2 => if t2.ask > 0 then 1 / t2.ask else 1
        | none => (1:ℚ)) := by
      rcases get_tick m (a ++ p) with _ | t2
      · norm_num
      · dsimp only
        split_ifs with hask
        · positivity
        · norm_num
    rcases get_tick m (p ++ a) with _ | t1
    · exact hfall
    · dsimp only
      split_ifs with hbid
      · exact hbid
      · exact hfall

/-- calculate_lot_size_advanced (src/trading_app_main.py lines 631-740):
risk-based position sizing.  Mirrors the source line by line: connection and
risk checks, account/symbol info fetches, `getattr` defaults, the non-positive
stop-loss and zero-divisor fallbacks returning the (sanitised) minimum
volume, cross-currency conversion via a direct quote's bid or the inverse
quote's ask with fallback rate 1.0, clamping to [volume_min, volume_max],
rounding to the nearest volume_step and to the volume-precision digits, and
the final minimum-volume checks. -/
def calculate_lot_size_advanced (m : Mt5) (symbol : String)
    (risk_percent : ℚ) (sl_pips_for_lot_calc : ℚ) : ℚ :=
  if ¬ m.connected ∨ risk_percent ≤ 0 then
    match (if m.connected then get_symbol_info m symbol else none) with
    | some si => if si.volume_min > 0 then si.volume_min else 1/100
    | none => 1/100
  else
    match get_account_info m with
    | none =>
        match get_symbol_info m symbol with
        | some si => if si.volume_min > 0 then si.volume_min else 1/100
        | none => 1/100
    | some account =>
        match get_symbol_info m symbol with
        | none => 1/100
        | some symbol_info =>
            let balance := account.balance
            let account_currency := account.currency
            let volume_min0 := symbol_info.volume_min
            let volume_max := symbol_info.volume_max
            let volume_step0 := symbol_info.volume_step
            let trade_contract_size := symbol_info.trade_contract_size
            let point_val := symbol_info.point
            let symbol_profit_currency :=
              symbol_info.currency_profit.getD account_currency
            let volume_digits_precision :=
              match symbol_info.volume_digits with
              | some d => d
              | none => volumeDigitsFallback volume_step0
            let volume_min := if volume_min0 ≤ 0 then 1/100 else volume_min0
            let volume_step := if volume_step0 ≤ 0 then 1/100 else volume_step0
            if sl_pips_for_lot_calc ≤ 0 then
              pyRoundTo (max volume_min (1/100)) volume_digits_precision
            else
              let risk_amount := balance * risk_percent / 100
              if trade_contract_size = 0 ∨ point_val = 0 then
                pyRoundTo (max volume_min (1/100)) volume_digits_precision
              else
                let value_profit := trade_contract_size * point_val
                if value_profit = 0 then
                  pyRoundTo (max volume_min (1/100)) volume_digits_precision
                else
                  let conversion_rate : ℚ :=
                    conversionRate m symbol_profit_currency account_currency
                  let value_account := value_profit * conversion_rate
                  if value_account = 0 then
                    pyRoundTo (max volume_min (1/100)) volume_digits_precision
                  else
                    let sl_value := sl_pips_for_lot_calc * value_account
                    if sl_value = 0 then
                      pyRoundTo (max volume_min (1/100)) volume_digits_precision
                    else
                      let calculated_lot := risk_amount / sl_value
                      let lot_adjusted0 := max calculated_lot volume_min
                      let lot_adjusted1 :=
                        match volume_max with
                        | some vmax => min lot_adjusted0 vmax
                        | none => lot_adjusted0
                      let lot_adjusted2 :=
                        if volume_step > 0 then
                          (pyRound (lot_adjusted1 / volume_step) : ℚ) * volume_step
                        else lot_adjusted1
                      let final_lot0 := pyRoundTo lot_adjusted2 volume_digits_precision
                      let final_lot1 :=
                        if final_lot0 < volume_min then volume_min else final_lot0
                      let final_lot2 :=
                        if final_lot1 = 0 ∧ volume_min > 0 then volume_min
                        else final_lot1
                      final_lot2


theorem le_pyRound {a : ℤ} {x : ℚ} (h : (a:ℚ) ≤ x) : a ≤ pyRound x := by
  have h1 : a ≤ ⌊x⌋ := Int.le_floor.mpr h
  have hfl := ratFloor_eq_floor x
  simp only [pyRound]
  split_ifs <;> simp only [hfl] <;> omega

theorem pyRound_le {x : ℚ} {b : ℤ} (h : x ≤ (b:ℚ)) : pyRound x ≤ b := by
  have hfl := ratFloor_eq_floor x
  have h1 : ⌊x⌋ ≤ b := by
    have := Int.floor_le_floor h
    simpa using this
  have hfx : (⌊x⌋ : ℚ) ≤ x := Int.floor_le x
  simp only [pyRound]
  split_ifs with ha hb hc
  · simpa only [hfl] using h1
  · rw [hfl]
    by_contra hbc
    push_neg at hbc
    have hble : b ≤ ⌊x⌋ := by omega
    have : (b:ℚ) ≤ (⌊x⌋:ℚ) := by exact_mod_cast hble
    rw [hfl] at hb
    linarith
  · simpa only [hfl] using h1
  · rw [hfl]
    by_contra hbc
    push_neg at hbc
    have hble : b ≤ ⌊x⌋ := by omega
    have hcast : (b:ℚ) ≤ (⌊x⌋:ℚ) := by exact_mod_cast hble
    rw [hfl] at ha
    push_neg at ha
    linarith

theorem pyRound_intCast (k : ℤ) : pyRound (k : ℚ) = k := by
  have hfl : Rat.floor (k:ℚ) = k := by
    rw [ratFloor_eq_floor]; exact Int.floor_intCast k
  simp only [pyRound, hfl]
  norm_num

theorem pyRoundTo_eq_self {q : ℚ} {n : ℕ} (k : ℤ) (h : q * 10 ^ n = (k:ℚ)) :
    pyRoundTo q n = q := by
  have hpow : ((10:ℚ) ^ n) ≠ 0 := by positivity
  unfold pyRoundTo
  rw [h, pyRound_intCast, div_eq_iff hpow, ← h]

/-- C2 (amended): for risk percent > 0 and stop-loss distance > 0, with the
account and symbol metadata available, positive volume_min and volume_step
with volume_min ≤ volume_max, volume_min and volume_max exact integer
multiples of volume_step, and volume_step exactly representable at the
symbol's volume-precision digits, the computed lot lies within
[volume_min, volume_max] and is an exact integer multiple of volume_step —
on the same-currency and the cross-currency paths alike, since the
conversion rate is positive in every branch (`conversionRate_pos`).  (The
original unconditional claim is refuted by
`lot_size_can_exceed_volume_max`: rounding the clamped value to the nearest
volume_step can push the result above a volume_max that is not aligned to
volume_step.) -/
theorem lot_size_within_bounds_and_step_multiple
    (m : Mt5) (symbol : String) (risk sl : ℚ) (a : AccountInfo)
    (si : SymbolInfo) (M : ℚ) (d : ℕ) (i j z : ℤ)
    (hconn : m.connected = true)
    (hacct : m.account = some a)
    (hsi : m.symbolInfo symbol = some si)
    (hrisk : 0 < risk) (hsl : 0 < sl)
    (hcs : si.trade_contract_size ≠ 0) (hpt : si.point ≠ 0)
    (hminpos : 0 < si.volume_min) (hsteppos : 0 < si.volume_step)
    (hmax : si.volume_max = some M)
    (hminM : si.volume_min ≤ M)
    (hdig : si.volume_digits = some d)
    (hmin_mul : si.volume_min = (i:ℚ) * si.volume_step)
    (hmax_mul : M = (j:ℚ) * si.volume_step)
    (hstep_rep : si.volume_step * 10 ^ d = (z:ℚ)) :
    si.volume_min ≤ calculate_lot_size_advanced m symbol risk sl ∧
    calculate_lot_size_advanced m symbol risk sl ≤ M ∧
    ∃ k : ℤ, calculate_lot_size_advanced m symbol risk sl = (k:ℚ) * si.volume_step := by
  have hnotmin : ¬ si.volume_min ≤ 0 := not_le.mpr hminpos
  have hnotstep : ¬ si.volume_step ≤ 0 := not_le.mpr hsteppos
  have hρ : 0 < conversionRate m (si.currency_profit.getD a.currency) a.currency :=
    conversionRate_pos m (si.currency_profit.getD a.currency) a.currency
  have hvp : si.trade_contract_size * si.point ≠ 0 := mul_ne_zero hcs hpt
  have hva : si.trade_contract_size * si.point *
      conversionRate m (si.currency_profit.getD a.currency) a.currency ≠ 0 :=
    mul_ne_zero hvp (ne_of_gt hρ)
  have hslv : sl * (si.trade_contract_size * si.point *
      conversionRate m (si.currency_profit.getD a.currency) a.currency) ≠ 0 :=
    mul_ne_zero (ne_of_gt hsl) hva
  have hmain : calculate_lot_size_advanced m symbol risk sl =
      (let calcd := a.balance * risk / 100 /
        (sl * (si.trade_contract_size * si.point *
          conversionRate m (si.currency_profit.getD a.currency) a.currency));
      let l1 := min (max calcd si.volume_min) M;
      let l2 := (pyRound (l1 / si.volume_step) : ℚ) * si.volume_step;
      let f0 := pyRoundTo l2 d;
      let f1 := if f0 < si.volume_min then si.volume_min else f0;
      if f1 = 0 ∧ si.volume_min > 0 then si.volume_min else f1) := by
    unfold calculate_lot_size_advanced
    rw [if_neg (by simp [hconn, not_le.mpr hrisk])]
    simp only [get_account_info, get_symbol_info, hconn, if_true, hacct, hsi,
      hmax, hdig, if_pos rfl]
    rw [if_neg hnotmin, if_neg hnotstep,
      if_neg (not_le.mpr hsl), if_neg (by push_neg; exact ⟨hcs, hpt⟩),
      if_neg hvp, if_neg hva, if_neg hslv, if_pos hsteppos]
  rw [hmain]
  set calcd := a.balance * risk / 100 /
    (sl * (si.trade_contract_size * si.point *
      conversionRate m (si.currency_profit.getD a.currency) a.currency)) with hcalcd
  set l1 := min (max calcd si.volume_min) M with hl1
  set k := pyRound (l1 / si.volume_step) with hk
  have hl1min : si.volume_min ≤ l1 := le_min (le_max_right _ _) hminM
  have hl1max : l1 ≤ M := min_le_right _ _
  have hxlo : (i:ℚ) ≤ l1 / si.volume_step := by
    rw [le_div_iff₀ hsteppos, ← hmin_mul]; exact hl1min
  have hxhi : l1 / si.volume_step ≤ (j:ℚ) := by
    rw [div_le_iff₀ hsteppos, ← hmax_mul]; exact hl1max
  have hki : i ≤ k := le_pyRound hxlo
  have hkj : k ≤ j := pyRound_le hxhi
  have hl2min : si.volume_min ≤ (k:ℚ) * si.volume_step := by
    rw [hmin_mul]
    exact mul_le_mul_of_nonneg_right (by exact_mod_cast hki) (le_of_lt hsteppos)
  have hl2max : (k:ℚ) * si.volume_step ≤ M := by
    rw [hmax_mul]
    exact mul_le_mul_of_nonneg_right (by exact_mod_cast hkj) (le_of_lt hsteppos)
  have hf0 : pyRoundTo ((k:ℚ) * si.volume_step) d = (k:ℚ) * si.volume_step := by
    refine pyRoundTo_eq_self (k * z) ?_
    rw [mul_assoc, hstep_rep]
    push_cast
    ring
  simp only [hf0]
  rw [if_neg (not_lt.mpr hl2min)]
  have hne : ¬ ((k:ℚ) * si.volume_step = 0 ∧ si.volume_min > 0) := by
    rintro ⟨hz, -⟩
    rw [hz] at hl2min
    exact absurd hl2min (not_le.mpr hminpos)
  rw [if_neg hne]
  exact ⟨hl2min, hl2max, k, rfl⟩

/-- Symbol metadata for the C2 counterexample: volume_max (0.016) is not a
multiple of volume_step (0.01). -/
def siC2 : SymbolInfo :=
  { point := 1/100, digits := 2, spread := none, volume_min := 1/100,
    volume_max := some (16/1000), volume_step := 1/100,
    volume_digits := some 2, trade_contract_size := 100,
    currency_profit := some "USD" }

/-- Connected venue state for the C2 counterexample. -/
def mC2 : Mt5 :=
  { connected := true, account := some { balance := 10000, currency := "USD" },
    symbolInfo := fun s => if s = "XC2" then some siC2 else none,
    tick := fun _ => none, order_check := none, order_send := none,
    last_error := (0, "") }

/-- C2 counterexample: with risk 1% of a 10000 balance and a 50-point stop
(raw volume 2.0), volume_max = 0.016 and volume_step = 0.01, the clamped
value 0.016 is rounded to the nearest step, giving 0.02 > volume_max, so the
computation does return a value above volumeMax. -/
theorem lot_size_can_exceed_volume_max :
    calculate_lot_size_advanced mC2 "XC2" 1 50 = 2/100 ∧
    siC2.volume_max = some (16/1000) ∧
    ¬ (calculate_lot_size_advanced mC2 "XC2" 1 50 ≤ 16/1000) := by
  with_unfolding_all decide

/-- Symbol metadata for the C2 witness (spec §8 example: contract 100, point
0.01, min 0.01, max 100, step 0.01). -/
def siC2w : SymbolInfo :=
  { point := 1/100, digits := 2, spread := none, volume_min := 1/100,
    volume_max := some 100, volume_step := 1/100,
    volume_digits := some 2, trade_contract_size := 100,
    currency_profit := some "USD" }

/-- Connected venue state for the C2 witness. -/
def mC2w : Mt5 :=
  { connected := true, account := some { balance := 10000, currency := "USD" },
    symbolInfo := fun s => if s = "XW" then some siC2w else none,
    tick := fun _ => none, order_check := none, order_send := none,
    last_error := (0, "") }

/-- Symbol metadata for the cross-currency C2 witness: identical to `siC2w`
except that the profit currency is JPY while the account is in USD, so the
sizing walks the conversion-rate branch. -/
def siC2x : SymbolInfo :=
  { point := 1/100, digits := 2, spread := none, volume_min := 1/100,
    volume_max := some 100, volume_step := 1/100,
    volume_digits := some 2, trade_contract_size := 100,
    currency_profit := some "JPY" }

/-- Connected venue state for the cross-currency C2 witness; the JPYUSD tick
supplies a positive bid of 1/150 as the conversion rate. -/
def mC2x : Mt5 :=
  { connected := true, account := some { balance := 10000, currency := "USD" },
    symbolInfo := fun s => if s = "XX" then some siC2x else none,
    tick := fun s =>
      if s = "JPYUSD" then some { bid := 1/150, ask := 151/22500, spread := some 1 }
      else none,
    order_check := none, order_send := none, last_error := (0, "") }

/-- Witness for `lot_size_within_bounds_and_step_multiple` at the spec's
worked example (balance 10000, risk 1%, SL 50 points), once on the
same-currency path and once on the cross-currency path (profit currency JPY,
account currency USD, conversion rate 1/150 from the JPYUSD bid). -/
theorem lot_size_within_bounds_witness :
    (siC2w.volume_min ≤ calculate_lot_size_advanced mC2w "XW" 1 50 ∧
     calculate_lot_size_advanced mC2w "XW" 1 50 ≤ 100 ∧
     ∃ k : ℤ, calculate_lot_size_advanced mC2w "XW" 1 50 = (k:ℚ) * siC2w.volume_step) ∧
    (siC2x.volume_min ≤ calculate_lot_size_advanced mC2x "XX" 1 50 ∧
     calculate_lot_size_advanced mC2x "XX" 1 50 ≤ 100 ∧
     ∃ k : ℤ, calculate_lot_size_advanced mC2x "XX" 1 50 = (k:ℚ) * siC2x.volume_step) :=
  ⟨lot_size_within_bounds_and_step_multiple mC2w "XW" 1 50
    { balance := 10000, currency := "USD" } siC2w 100 2 1 10000 1
    rfl rfl (by with_unfolding_all rfl) (by norm_num) (by norm_num)
    (by with_unfolding_all decide)
    (by with_unfolding_all decide) (by with_unfolding_all decide)
    (by with_unfolding_all decide) rfl (by with_unfolding_all decide) rfl
    (by with_unfolding_all decide) (by with_unfolding_all decide)
    (by with_unfolding_all decide),
   lot_size_within_bounds_and_step_multiple mC2x "XX" 1 50
    { balance := 10000, currency := "USD" } siC2x 100 2 1 10000 1
    rfl rfl (by with_unfolding_all rfl) (by norm_num) (by norm_num)
    (by with_unfolding_all decide)
    (by with_unfolding_all decide) (by with_unfolding_all decide)
    (by with_unfolding_all decide) rfl (by with_unfolding_all decide) rfl
    (by with_unfolding_all decide) (by with_unfolding_all decide)
    (by with_unfolding_all decide)⟩

/-- C3 (amended): when the stop-loss distance is ≤ 0, or the contract size or
point size is zero/missing, the lot computation returns
`round(max(volumeMin, 0.01), volumeDigits)` — hence exactly volumeMin
whenever volumeMin ≥ 0.01 and volumeMin is representable at the symbol's
volume-precision digits.  (The original claim of returning exactly volumeMin
unconditionally is refuted by `lot_size_fallback_not_exactly_min`: the code
raises the fallback to at least 0.01, so a volumeMin below 0.01 is not
returned.) -/
theorem lot_size_fallback_returns_min_volume
    (m : Mt5) (symbol : String) (risk sl : ℚ) (a : AccountInfo)
    (si : SymbolInfo) (d : ℕ) (z : ℤ)
    (hconn : m.connected = true)
    (hrisk : 0 < risk)
    (hacct : m.account = some a)
    (hsi : m.symbolInfo symbol = some si)
    (htrigger : sl ≤ 0 ∨ si.trade_contract_size = 0 ∨ si.point = 0)
    (hdig : si.volume_digits = some d)
    (hmin01 : 1/100 ≤ si.volume_min)
    (hrep : si.volume_min * 10 ^ d = (z:ℚ)) :
    calculate_lot_size_advanced m symbol risk sl = si.volume_min := by
  have hminpos : (0:ℚ) < si.volume_min := lt_of_lt_of_le (by norm_num) hmin01
  have hnotmin : ¬ si.volume_min ≤ 0 := not_le.mpr hminpos
  have key : pyRoundTo (max si.volume_min (1/100)) d = si.volume_min := by
    rw [max_eq_left hmin01]
    exact pyRoundTo_eq_self z hrep
  unfold calculate_lot_size_advanced
  rw [if_neg (by simp [hconn, not_le.mpr hrisk])]
  simp only [get_account_info, get_symbol_info, hconn, if_true, hacct, hsi,
    hdig, if_pos rfl]
  rw [if_neg hnotmin]
  by_cases hsl0 : sl ≤ 0
  · rw [if_pos hsl0]
    exact key
  · rw [if_neg hsl0]
    have hz : si.trade_contract_size = 0 ∨ si.point = 0 := by
      rcases htrigger with h | h | h
      · exact absurd h hsl0
      · exact Or.inl h
      · exact Or.inr h
    rw [if_pos hz]
    exact key

/-- Symbol metadata for the C3 counterexample: volume_min = 0.001 is below
the hard-coded 0.01 floor of the fallback. -/
def siC3 : SymbolInfo :=
  { point := 1/100, digits := 2, spread := none, volume_min := 1/1000,
    volume_max := some 100, volume_step := 1/1000,
    volume_digits := some 3, trade_contract_size := 100,
    currency_profit := some "USD" }

/-- Connected venue state for the C3 counterexample. -/
def mC3 : Mt5 :=
  { connected := true, account := some { balance := 10000, currency := "USD" },
    symbolInfo := fun s => if s = "XC3" then some siC3 else none,
    tick := fun _ => none, order_check := none, order_send := none,
    last_error := (0, "") }

/-- C3 counterexample: with stop-loss distance 0 and volumeMin = 0.001, the
fallback returns round(max(0.001, 0.01), 3) = 0.01, not volumeMin. -/
theorem lot_size_fallback_not_exactly_min :
    calculate_lot_size_advanced mC3 "XC3" 1 0 = 1/100 ∧
    siC3.volume_min = 1/1000 ∧ ((1:ℚ)/100 ≠ 1/1000) := by
  with_unfolding_all decide

/-- Symbol metadata for the C3 witness: volume_min = 0.05 ≥ 0.01. -/
def siC3w : SymbolInfo :=
  { point := 1/100, digits := 2, spread := none, volume_min := 5/100,
    volume_max := some 100, volume_step := 1/100,
    volume_digits := some 2, trade_contract_size := 100,
    currency_profit := some "USD" }

/-- Connected venue state for the C3 witness. -/
def mC3w : Mt5 :=
  { connected := true, account := some { balance := 10000, currency := "USD" },
    symbolInfo := fun s => if s = "Xw3" then some siC3w else none,
    tick := fun _ => none, order_check := none, order_send := none,
    last_error := (0, "") }

/-- Witness for `lot_size_fallback_returns_min_volume`: stop-loss 0 with
volumeMin = 0.05 yields exactly 0.05. -/
theorem lot_size_fallback_witness :
    calculate_lot_size_advanced mC3w "Xw3" 1 0 = siC3w.volume_min :=
  lot_size_fallback_returns_min_volume mC3w "Xw3" 1 0
    { balance := 10000, currency := "USD" } siC3w 2 5
    rfl (by norm_num) rfl (by with_unfolding_all rfl)
    (Or.inl (by norm_num)) rfl (by with_unfolding_all decide)
    (by with_unfolding_all decide)

/-- Effective values returned by the DataManager's `get_setting` calls made
by the execution core (each field is the result of the corresponding
`get_setting(key, default)` call; `min_trade_interval_minutes` is keyed by
the symbol-specific setting key and already includes the two-level
defaulting of src/trading_app_main.py lines 1866-1868). -/
structure Settings where
  time_filter_enabled : Bool
  trade_start_time : String
  trade_end_time : String
  halt_trades_on_news : Bool
  min_trade_interval_minutes : String → ℚ
  gold_symbol : String
  bitcoin_symbol : String
  max_allowed_spread_points_gold : ℚ
  max_allowed_spread_points_bitcoin : ℚ
  max_allowed_spread_points_other : ℚ
  risk_percent_per_trade : ℚ
  default_sl_pips : ℚ
  gold_sl_pips : ℚ
  btc_sl_pips : ℚ
  default_tp_pips : ℚ
  gold_tp_pips : ℚ
  btc_tp_pips : ℚ
  auto_trade_enabled : Bool
  auto_trade_min_confidence : ℚ
  log_trade_requests_enabled : Bool

/-- Model of `datetime.strptime(s, "%H:%M").time()`: one or two digits for a
0-23 hour, a colon, one or two digits for a 0-59 minute; anything else raises
(returns `none`).  The parsed time of day is in seconds. -/
def parseHM (s : String) : Option ℚ :=
  match s.splitOn ":" with
  | [hStr, mStr] =>
      if hStr.length = 0 ∨ 2 < hStr.length ∨ mStr.length = 0 ∨ 2 < mStr.length then
        none
      else
        match hStr.toNat?, mStr.toNat? with
        | some h, some mm =>
            if h ≤ 23 ∧ mm ≤ 59 then some (3600 * (h:ℚ) + 60 * (mm:ℚ)) else none
        | _, _ => none
  | _ => none

/-- is_trading_time_allowed (src/trading_app_main.py lines 1759-1779):
disabled filter always allows; otherwise the current UTC time of day
(`nowTod`, seconds since midnight) is compared with the configured window,
inclusively on both ends, wrapping past midnight when start > end; any
exception while evaluating (an unparsable configured time) allows the trade
as a fallback. -/
def is_trading_time_allowed (s : Settings) (nowTod : ℚ) : Bool :=
  if ¬ s.time_filter_enabled then true
  else
    match parseHM s.trade_start_time, parseHM s.trade_end_time with
    | some start_trade_time, some end_trade_time =>
        if start_trade_time ≤ end_trade_time then
          if start_trade_time ≤ nowTod ∧ nowTod ≤ end_trade_time then true
          else false
        else
          if nowTod ≥ start_trade_time ∨ nowTod ≤ end_trade_time then true
          else false
    | _, _ => true

/-- C9 (amended): when the trading-hours gate is enabled and both configured
times parse, the current UTC time of day is tested against the closed window
[start, end] (inclusive of both endpoints, not half-open), and a window with
start > end wraps past midnight; the 22:00-05:00 examples of the claim (pass
at 23:30 UTC, block at 12:00 UTC) hold.  (The half-open [start, end) reading
of the original claim is refuted by `trading_hours_not_half_open`: at
exactly the end time the code allows trading.) -/
theorem trading_hours_window (s : Settings) (tod st en : ℚ)
    (hen : s.time_filter_enabled = true)
    (hst : parseHM s.trade_start_time = some st)
    (hend : parseHM s.trade_end_time = some en) :
    (is_trading_time_allowed s tod = true ↔
      (if st ≤ en then st ≤ tod ∧ tod ≤ en else (tod ≥ st ∨ tod ≤ en))) := by
  simp only [is_trading_time_allowed, hst, hend, hen, not_true, if_false]
  split_ifs with h1 h2 h3 <;> simp_all

/-- Settings instance with the claim's overnight 22:00-05:00 UTC window and
the time filter enabled. -/
def sC9 : Settings :=
  { time_filter_enabled := true, trade_start_time := "22:00",
    trade_end_time := "05:00", halt_trades_on_news := true,
    min_trade_interval_minutes := fun _ => 15, gold_symbol := "XAUUSD",
    bitcoin_symbol := "BTCUSD", max_allowed_spread_points_gold := 30,
    max_allowed_spread_points_bitcoin := 1000,
    max_allowed_spread_points_other := 0, risk_percent_per_trade := 1,
    default_sl_pips := 50, gold_sl_pips := 50, btc_sl_pips := 50,
    default_tp_pips := 100, gold_tp_pips := 100, btc_tp_pips := 100,
    auto_trade_enabled := true, auto_trade_min_confidence := 70,
    log_trade_requests_enabled := true }

/-- Modelled from the claim's words only (for comparison with the code): the
half-open window test "[start, end)", wrapping past midnight when
start > end. -/
def trading_time_allowed_half_open (s : Settings) (nowTod : ℚ) : Bool :=
  if ¬ s.time_filter_enabled then true
  else
    match parseHM s.trade_start_time, parseHM s.trade_end_time with
    | some st, some en =>
        if st ≤ en then decide (st ≤ nowTod ∧ nowTod < en)
        else decide (nowTod ≥ st ∨ nowTod < en)
    | _, _ => true

/-- C9 counterexample: for the 22:00-05:00 UTC window at exactly 05:00:00
UTC (18000 seconds), the code allows the trade while the claimed half-open
window [start, end) blocks it, so the gate is not half-open. -/
theorem trading_hours_not_half_open :
    is_trading_time_allowed sC9 18000 = true ∧
    trading_time_allowed_half_open sC9 18000 = false := by
  with_unfolding_all decide

/-- Witness for `trading_hours_window`: the claim's own examples, a
22:00-05:00 UTC window passes at 23:30 UTC (84600 s) and blocks at 12:00
UTC (43200 s). -/
theorem trading_hours_window_witness :
    is_trading_time_allowed sC9 84600 = true ∧
    is_trading_time_allowed sC9 43200 = false := by
  have h1 := trading_hours_window sC9 84600 79200 18000 rfl
    (by with_unfolding_all rfl) (by with_unfolding_all rfl)
  have h2 := trading_hours_window sC9 43200 79200 18000 rfl
    (by with_unfolding_all rfl) (by with_unfolding_all rfl)
  constructor
  · rw [h1]
    norm_num
  · rw [Bool.eq_false_iff]
    intro hcon
    rw [h2] at hcon
    norm_num at hcon

/-- C10: if evaluating the trading-hours gate raises (an unparsable
configured start or end time string), the gate returns true and the trade is
allowed to proceed — the time filter fails open. -/
theorem time_filter_fails_open (s : Settings) (tod : ℚ)
    (h : parseHM s.trade_start_time = none ∨ parseHM s.trade_end_time = none) :
    is_trading_time_allowed s tod = true := by
  rw [is_trading_time_allowed]
  by_cases hen : s.time_filter_enabled
  · simp only [hen]
    rcases h with h | h
    · rw [h]
      norm_num
    · rw [h]
      rcases parseHM s.trade_start_time with _ | st <;> norm_num
  · simp [hen]

/-- Settings instance with an unparsable start time. -/
def sC10 : Settings :=
  { sC9 with trade_start_time := "bad" }

/-- Witness for `time_filter_fails_open`: an unparsable start time string
makes the gate allow the trade. -/
theorem time_filter_fails_open_witness :
    is_trading_time_allowed sC10 43200 = true :=
  time_filter_fails_open sC10 43200 (Or.inl (by with_unfolding_all rfl))

/-- Outcome of one connection attempt against the external venue
(src/mt5_manager.py lines 66-105): `initialize()` failing with a venue
error, `account_info()` failing after a successful initialize, a successful
verification, or a generic exception raised during the attempt. -/
inductive AttemptOutcome where
  | initFail (code : ℤ) (desc : String)
  | acctFail (code : ℤ) (desc : String)
  | success (acct : AccountInfo)
  | exc (msg : String)
deriving DecidableEq

/-- Connection configuration loaded from settings (src/mt5_manager.py
lines 30-46). -/
structure ConnConfig where
  login : Option String
  server : Option String
  path : Option String
  retries : ℕ
deriving DecidableEq

/-- Mutable MT5Manager connection state relevant to `connect`. -/
structure ConnState where
  connected : Bool
  last_raw_error_message : String
deriving DecidableEq

/-- Result of a `connect()` call: the returned boolean, the final
`self.connected` flag and `self.last_raw_error_message`, and how many
attempts were started. -/
structure ConnectResult where
  ok : Bool
  connected : Bool
  last_raw_error_message : String
  attemptsStarted : ℕ
deriving DecidableEq

/-- Model of Python `int(s)` applied to a string: optional surrounding
whitespace, an optional sign, then decimal digits; anything else raises
ValueError (`none`). -/
def strToInt? (s : String) : Option ℤ :=
  let t := s.trim
  if t = "" then none
  else if t.front = '-' then ((t.drop 1).toNat?).map (fun n => -(n:ℤ))
  else if t.front = '+' then ((t.drop 1).toNat?).map (fun n => (n:ℤ))
  else (t.toNat?).map (fun n => (n:ℤ))

/-- The error message captured for a failed connection attempt
(src/mt5_manager.py lines 71, 87, 99). -/
def attemptErrMsg (o : AttemptOutcome) (attempt : ℕ) : String :=
  match o with
  | .initFail c d =>
      "initialize() failed. Code: " ++ toString c ++ ", Description: " ++ d
  | .acctFail c d =>
      "account_info() failed after successful initialize. Code: " ++
        toString c ++ ", Desc: " ++ d
  | .exc msg =>
      "Exception during MT5 connection attempt " ++ toString (attempt + 1) ++
        ": " ++ msg
  | .success _ => ""

/-- Fallback error message when the retry loop ends without a recorded
reason (src/mt5_manager.py line 109). -/
def connectDefaultFailMsg : String :=
  "Failed to connect to MT5 after all retries. Unknown reason if no specific error was logged."

/-- Message of the non-retryable configuration error for a non-numeric login
(src/mt5_manager.py line 94; the interpreter-generated `Details:` suffix of
the ValueError text is abstracted away). -/
def connectConfigErrorMsg (cfg : ConnConfig) : String :=
  "Configuration error: MT5 Login (\x27" ++ pyStr cfg.login ++ "\x27) must be a number."

/-- The retry loop of `connect` (src/mt5_manager.py lines 66-111), recursing
on the remaining attempt budget.  Each attempt first evaluates
`int(self.login)` (a ValueError returns immediately with the configuration
error), then consults the oracle outcome for this attempt: success returns
True with the connected flag set and the error message cleared; any failure
records its message and continues; an exhausted budget returns False with
the last captured reason (or the default message if none). -/
def connectLoop (outcomes : ℕ → AttemptOutcome) (loginOk : Bool)
    (configErr : String) : ℕ → ℕ → String → ConnectResult
  | 0, attempt, lastErr =>
      { ok := false, connected := false,
        last_raw_error_message :=
          if lastErr = "" then connectDefaultFailMsg else lastErr,
        attemptsStarted := attempt }
  | r + 1, attempt, _lastErr =>
      if loginOk then
        match outcomes attempt with
        | .success _ =>
            { ok := true, connected := true, last_raw_error_message := "",
              attemptsStarted := attempt + 1 }
        | .initFail c d =>
            connectLoop outcomes loginOk configErr r (attempt + 1)
              (attemptErrMsg (.initFail c d) attempt)
        | .acctFail c d =>
            connectLoop outcomes loginOk configErr r (attempt + 1)
              (attemptErrMsg (.acctFail c d) attempt)
        | .exc msg =>
            connectLoop outcomes loginOk configErr r (attempt + 1)
              (attemptErrMsg (.exc msg) attempt)
      else
        { ok := false, connected := false, last_raw_error_message := configErr,
          attemptsStarted := attempt + 1 }
  termination_by r => r

/-- MT5Manager.connect (src/mt5_manager.py lines 51-111): returns True
immediately when already connected; resets the error message; rejects
missing credentials without any attempt; otherwise runs the bounded retry
loop. -/
def connect (cfg : ConnConfig) (st : ConnState)
    (outcomes : ℕ → AttemptOutcome) : ConnectResult :=
  if st.connected then
    { ok := true, connected := true,
      last_raw_error_message := st.last_raw_error_message,
      attemptsStarted := 0 }
  else if ¬ (pyTruthy cfg.login ∧ pyTruthy cfg.server ∧ pyTruthy cfg.path) then
    { ok := false, connected := false,
      last_raw_error_message :=
        "MT5 connection details (login, server, path) are not fully configured.",
      attemptsStarted := 0 }
  else
    connectLoop outcomes (strToInt? (pyStr cfg.login)).isSome
      (connectConfigErrorMsg cfg) cfg.retries 0 ""

theorem connectLoop_attempts_le (outcomes : ℕ → AttemptOutcome)
    (loginOk : Bool) (configErr : String) :
    ∀ (r attempt : ℕ) (lastErr : String),
      (connectLoop outcomes loginOk configErr r attempt lastErr).attemptsStarted ≤
        attempt + r := by
  intro r
  induction r with
  | zero =>
      intro attempt lastErr
      simp [connectLoop]
  | succ n ih =>
      intro attempt lastErr
      rw [connectLoop]
      by_cases hl : loginOk = true
      · rw [if_pos hl]
        cases houtcome : outcomes attempt with
        | success a => dsimp only; omega
        | initFail c d => exact le_trans (ih (attempt + 1) _) (by omega)
        | acctFail c d => exact le_trans (ih (attempt + 1) _) (by omega)
        | exc msg => exact le_trans (ih (attempt + 1) _) (by omega)
      · rw [if_neg hl]
        dsimp only
        omega

theorem connectLoop_all_fail (outcomes : ℕ → AttemptOutcome)
    (configErr : String)
    (hfail : ∀ i a, outcomes i ≠ AttemptOutcome.success a) :
    ∀ (r attempt : ℕ) (lastErr : String),
      (connectLoop outcomes true configErr r attempt lastErr).ok = false ∧
      (connectLoop outcomes true configErr r attempt lastErr).attemptsStarted =
        attempt + r ∧
      (connectLoop outcomes true configErr r attempt lastErr).last_raw_error_message =
        (if r = 0 then (if lastErr = "" then connectDefaultFailMsg else lastErr)
         else
          (if attemptErrMsg (outcomes (attempt + r - 1)) (attempt + r - 1) = ""
           then connectDefaultFailMsg
           else attemptErrMsg (outcomes (attempt + r - 1)) (attempt + r - 1))) := by
  intro r
  induction r with
  | zero =>
      intro attempt lastErr
      simp [connectLoop]
  | succ n ih =>
      intro attempt lastErr
      rw [connectLoop]
      rw [if_pos rfl]
      have hne : ¬ (n + 1 = 0) := by omega
      cases houtcome : outcomes attempt with
      | success a => exact absurd houtcome (hfail attempt a)
      | initFail c d =>
          dsimp only
          rcases ih (attempt + 1) (attemptErrMsg (.initFail c d) attempt) with ⟨h1, h2, h3⟩
          refine ⟨h1, by omega, ?_⟩
          rw [h3, if_neg hne]
          rcases Nat.eq_zero_or_pos n with hn | hn
          · subst hn
            simp [houtcome, attemptErrMsg]
          · have he0 : ¬ (n = 0) := by omega
            have he1 : attempt + 1 + n - 1 = attempt + (n + 1) - 1 := by omega
            rw [if_neg he0, he1]
      | acctFail c d =>
          dsimp only
          rcases ih (attempt + 1) (attemptErrMsg (.acctFail c d) attempt) with ⟨h1, h2, h3⟩
          refine ⟨h1, by omega, ?_⟩
          rw [h3, if_neg hne]
          rcases Nat.eq_zero_or_pos n with hn | hn
          · subst hn
            simp [houtcome, attemptErrMsg]
          · have he0 : ¬ (n = 0) := by omega
            have he1 : attempt + 1 + n - 1 = attempt + (n + 1) - 1 := by omega
            rw [if_neg he0, he1]
      | exc msg =>
          dsimp only
          rcases ih (attempt + 1) (attemptErrMsg (.exc msg) attempt) with ⟨h1, h2, h3⟩
          refine ⟨h1, by omega, ?_⟩
          rw [h3, if_neg hne]
          rcases Nat.eq_zero_or_pos n with hn | hn
          · subst hn
            simp [houtcome, attemptErrMsg]
          · have he0 : ¬ (n = 0) := by omega
            have he1 : attempt + 1 + n - 1 = attempt + (n + 1) - 1 := by omega
            rw [if_neg he0, he1]

/-- C7: `connect` is idempotent when already connected (returns ok=true
immediately, with no attempt started); a malformed (non-numeric) account id
is a non-retryable configuration error returned within the first attempt;
at most the configured number of attempts is ever started; and when every
attempt fails, connect returns ok=false with the last captured failure
reason (the message of the final attempt, or the default message when no
attempt ran). -/
theorem connect_retry_contract (cfg : ConnConfig) (st : ConnState)
    (outcomes : ℕ → AttemptOutcome) :
    (st.connected = true →
      connect cfg st outcomes =
        { ok := true, connected := true,
          last_raw_error_message := st.last_raw_error_message,
          attemptsStarted := 0 }) ∧
    (st.connected = false →
      pyTruthy cfg.login = true → pyTruthy cfg.server = true →
      pyTruthy cfg.path = true →
      strToInt? (pyStr cfg.login) = none → 0 < cfg.retries →
      connect cfg st outcomes =
        { ok := false, connected := false,
          last_raw_error_message := connectConfigErrorMsg cfg,
          attemptsStarted := 1 }) ∧
    ((connect cfg st outcomes).attemptsStarted ≤ cfg.retries) ∧
    (st.connected = false →
      pyTruthy cfg.login = true → pyTruthy cfg.server = true →
      pyTruthy cfg.path = true →
      (strToInt? (pyStr cfg.login)).isSome = true →
      (∀ i a, outcomes i ≠ AttemptOutcome.success a) →
      (connect cfg st outcomes).ok = false ∧
      (connect cfg st outcomes).attemptsStarted = cfg.retries ∧
      (connect cfg st outcomes).last_raw_error_message =
        (if cfg.retries = 0 then connectDefaultFailMsg
         else
          (if attemptErrMsg (outcomes (cfg.retries - 1)) (cfg.retries - 1) = ""
           then connectDefaultFailMsg
           else attemptErrMsg (outcomes (cfg.retries - 1)) (cfg.retries - 1)))) := by
  refine ⟨?_, ?_, ?_, ?_⟩
  · intro hc
    rw [connect, if_pos hc]
  · intro hc hl hs hp hnum hr
    rw [connect, if_neg (by simp [hc]),
      if_neg (by simp [hl, hs, hp])]
    rw [hnum]
    rcases Nat.exists_eq_add_of_lt hr with ⟨k, hk⟩
    rw [show cfg.retries = k + 1 by omega]
    rw [connectLoop]
    simp [Option.isSome]
  · rw [connect]
    by_cases hc : st.connected = true
    · rw [if_pos hc]
      dsimp only
      omega
    · rw [if_neg hc]
      by_cases hcfg : pyTruthy cfg.login = true ∧ pyTruthy cfg.server = true ∧
          pyTruthy cfg.path = true
      · rw [if_neg (by simp [hcfg.1, hcfg.2.1, hcfg.2.2])]
        simpa using connectLoop_attempts_le outcomes _ _ cfg.retries 0 ""
      · rw [if_pos ?_]
        · dsimp only
          omega
        · intro h
          exact hcfg (by simpa using h)
  · intro hc hl hs hp hnum hfail
    rw [connect, if_neg (by simp [hc]), if_neg (by simp [hl, hs, hp])]
    rw [show (strToInt? (pyStr cfg.login)).isSome = true from hnum]
    have h := connectLoop_all_fail outcomes (connectConfigErrorMsg cfg) hfail
      cfg.retries 0 ""
    rcases h with ⟨h1, h2, h3⟩
    refine ⟨h1, by omega, ?_⟩
    rw [h3]
    rcases Nat.eq_zero_or_pos cfg.retries with hr | hr
    · simp [hr]
    · have hne : ¬ (cfg.retries = 0) := by omega
      rw [if_neg hne, if_neg hne]
      norm_num

/-- Outcome oracle for the C7 witness: every attempt fails with an
initialize error. -/
def outcomesC7 : ℕ → AttemptOutcome :=
  fun _ => AttemptOutcome.initFail 10013 "Invalid request"

/-- Configuration for the C7 witness. -/
def cfgC7 : ConnConfig :=
  { login := some "12345", server := some "Srv", path := some "C:/mt5", retries := 3 }

/-- Witness for `connect_retry_contract`: with three configured retries and
every attempt failing, connect returns false after exactly three attempts
with the last attempt's captured reason; and a non-numeric login returns
false after one attempt with the configuration error. -/
theorem connect_retry_contract_witness :
    ((connect cfgC7 { connected := false, last_raw_error_message := "" } outcomesC7).ok = false ∧
     (connect cfgC7 { connected := false, last_raw_error_message := "" } outcomesC7).attemptsStarted = 3 ∧
     (connect cfgC7 { connected := false, last_raw_error_message := "" } outcomesC7).last_raw_error_message =
       (if (3:ℕ) = 0 then connectDefaultFailMsg
        else
         (if attemptErrMsg (outcomesC7 (3 - 1)) (3 - 1) = ""
          then connectDefaultFailMsg
          else attemptErrMsg (outcomesC7 (3 - 1)) (3 - 1)))) ∧
    connect { cfgC7 with login := some "abc" }
        { connected := false, last_raw_error_message := "" } outcomesC7 =
      { ok := false, connected := false,
        last_raw_error_message :=
          connectConfigErrorMsg { cfgC7 with login := some "abc" },
        attemptsStarted := 1 } := by
  constructor
  · exact (connect_retry_contract cfgC7
      { connected := false, last_raw_error_message := "" } outcomesC7).2.2.2
      rfl (by with_unfolding_all rfl) (by with_unfolding_all rfl)
      (by with_unfolding_all rfl) (by with_unfolding_all rfl)
      (by intro i a h; cases h)
  · exact (connect_retry_contract { cfgC7 with login := some "abc" }
      { connected := false, last_raw_error_message := "" } outcomesC7).2.1
      rfl (by with_unfolding_all rfl) (by with_unfolding_all rfl)
      (by with_unfolding_all rfl) (by with_unfolding_all rfl)
      (by norm_num [cfgC7])

/-- Venue retcode constants (MetaTrader5 library). -/
def TRADE_RETCODE_DONE : ℤ := 10009

/-- Venue retcode constant for a placed pending order. -/
def TRADE_RETCODE_PLACED : ℤ := 10008

/-- Venue order-type constant. -/
def ORDER_TYPE_BUY : ℤ := 0

/-- Venue order-type constant. -/
def ORDER_TYPE_SELL : ℤ := 1

/-- MT5Manager._get_retcode_description (src/mt5_manager.py lines 417-441):
the static lookup table from venue result code to a human-readable
description, with a fallback for unknown codes.  In the source dict the key
10008 appears twice (`10008: "Order placed"` and
`mt5.TRADE_RETCODE_PLACED: ...`); the later entry wins, as in Python. -/
def get_retcode_description (retcode : ℤ) : String :=
  if retcode = 10004 then "Requote"
  else if retcode = 10006 then "Request rejected"
  else if retcode = 10007 then "Request canceled by trader"
  else if retcode = 10008 then "Order placed (pending or part of market execution)"
  else if retcode = 10009 then "Request completed (TRADE_RETCODE_DONE)"
  else if retcode = 10010 then "Request partially completed"
  else if retcode = 10011 then "Request processing error"
  else if retcode = 10012 then "Request timed out"
  else if retcode = 10013 then "Invalid request"
  else if retcode = 10014 then "Invalid volume"
  else if retcode = 10015 then "Invalid price"
  else if retcode = 10016 then "Invalid stops"
  else if retcode = 10017 then "Trade is disabled"
  else if retcode = 10018 then "Market is closed"
  else if retcode = 10019 then "Not enough money"
  else if retcode = 10020 then "Price changed"
  else if retcode = 10021 then "No quotes"
  else if retcode = 10022 then "Invalid expiration"
  else if retcode = 10023 then "Order state changed"
  else if retcode = 10024 then "Too frequent requests"
  else if retcode = 10025 then "No changes"
  else if retcode = 10026 then "Autotrading disabled by server"
  else if retcode = 10027 then "Autotrading disabled by client"
  else if retcode = 10028 then "Request locked for processing"
  else if retcode = 10030 then "No connection"
  else if retcode = 10031 then "Operation canceled"
  else if retcode = 10032 then "SL is too close to market"
  else if retcode = 10033 then "TP is too close to market"
  else if retcode = 10034 then "Order is closed"
  else if retcode = 10035 then "Position is closed"
  else if retcode = 10036 then "Too many requests"
  else if retcode = 10038 then "Position not found"
  else if retcode = 10039 then "Volume is too large"
  else if retcode = 10040 then "Volume is too small"
  else if retcode = 10041 then "Invalid SL"
  else if retcode = 10042 then "Invalid TP"
  else if retcode = 10043 then "History request failed"
  else if retcode = 10044 then "Trading disabled for symbol"
  else if retcode = 10045 then "Closing order only allowed"
  else if retcode = 10046 then "Order is being processed"
  else "Unknown retcode: " ++ toString retcode

/-- Open position snapshot returned by the venue (`mt5.positions_get`). -/
structure Position where
  symbol : String
  volume : ℚ
  ticket : ℤ
  ptype : ℤ
  magic : ℤ
deriving DecidableEq

/-- MT5Manager.get_open_positions (src/mt5_manager.py lines 315-335): empty
when not connected; otherwise the venue's positions, filtered by magic
number when one is given.  The venue's `positions_get()` answer is the
oracle `positionsOracle`. -/
def get_open_positions (m : Mt5) (positionsOracle : List Position)
    (magic : Option ℤ) : List Position :=
  if m.connected then
    match magic with
    | some mg => positionsOracle.filter (fun p => p.magic = mg)
    | none => positionsOracle
  else []

/-- Display of the magic filter in close-all messages
(`magic if magic is not None else "Any"`). -/
def magicStr (magic : Option ℤ) : String :=
  match magic with
  | some mg => toString mg
  | none => "Any"

/-- One iteration of the close-all loop (src/mt5_manager.py lines 358-406):
fetch the matching side's tick price, build the inverse-direction request,
submit it, and produce (closed?, per-position summary message).
`sendResult` is the venue's `order_send` answer for this position and
`mlast` the venue's `last_error()`. -/
def closeOne (tickOracle : String → Option Tick)
    (sendResult : Position → Option OrderSendResult)
    (mlast : ℤ × String) (p : Position) : Bool × String :=
  match tickOracle p.symbol with
  | none =>
      (false, "Pos " ++ toString p.ticket ++ "(" ++ p.symbol ++ "): Price error.")
  | some t =>
      let order_type_to_close :=
        if p.ptype = ORDER_TYPE_BUY then ORDER_TYPE_SELL else ORDER_TYPE_BUY
      let price_to_close :=
        if order_type_to_close = ORDER_TYPE_SELL then t.bid else t.ask
      if price_to_close ≤ 0 then
        (false, "Pos " ++ toString p.ticket ++ "(" ++ p.symbol ++ "): Invalid close price.")
      else
        match sendResult p with
        | some r =>
            if r.retcode = TRADE_RETCODE_DONE then
              (true, "Pos " ++ toString p.ticket ++ "(" ++ p.symbol ++ "): Closed.")
            else
              (false, "Pos " ++ toString p.ticket ++ "(" ++ p.symbol ++ "): Fail - " ++ r.comment)
        | none =>
            (false, "Pos " ++ toString p.ticket ++ "(" ++ p.symbol ++ "): Fail - " ++
              ("MT5 Error Code: " ++ toString mlast.1 ++ " - " ++ mlast.2))

/-- Accumulation step of the close-all loop: bump the closed or failed
counter and append the per-position summary message. -/
def closeAllStep (tickOracle : String → Option Tick)
    (sendResult : Position → Option OrderSendResult) (mlast : ℤ × String)
    (acc : ℕ × ℕ × List String) (p : Position) : ℕ × ℕ × List String :=
  let r := closeOne tickOracle sendResult mlast p
  if r.1 then (acc.1 + 1, acc.2.1, acc.2.2 ++ [r.2])
  else (acc.1, acc.2.1 + 1, acc.2.2 ++ [r.2])

/-- Result of a close-all call: the returned (ok, message) pair plus the
loop counters. -/
structure CloseAllResult where
  ok : Bool
  message : String
  closed_count : ℕ
  failed_count : ℕ
deriving DecidableEq

/-- The summary header of the close-all message (src/mt5_manager.py
line 408). -/
def closeAllHeader (magic : Option ℤ) (closed failed : ℕ) : String :=
  "Close All Summary (Magic: " ++ magicStr magic ++ "): Closed " ++
    toString closed ++ ", Failed " ++ toString failed ++ "."

/-- MT5Manager.close_all_trades (src/mt5_manager.py lines 340-415): iterate
every open position matching the magic filter, close each, accumulate
closed/failed counts and per-position messages, and return success iff no
position failed, together with the summary message. -/
def close_all_trades (m : Mt5) (positionsOracle : List Position)
    (sendResult : Position → Option OrderSendResult)
    (magic : Option ℤ) : CloseAllResult :=
  if ¬ m.connected then
    { ok := false, message := "Not connected to MT5",
      closed_count := 0, failed_count := 0 }
  else
    let positions_to_close := get_open_positions m positionsOracle magic
    if positions_to_close = [] then
      { ok := true,
        message := "No open positions found to close (Magic: " ++
          magicStr magic ++ ").",
        closed_count := 0, failed_count := 0 }
    else
      let acc := positions_to_close.foldl
        (closeAllStep m.tick sendResult m.last_error) (0, 0, [])
      let final_status_message :=
        if acc.2.2 = [] then closeAllHeader magic acc.1 acc.2.1
        else closeAllHeader magic acc.1 acc.2.1 ++ " Details: " ++
          String.intercalate "; " acc.2.2
      { ok := acc.2.1 = 0, message := final_status_message,
        closed_count := acc.1, failed_count := acc.2.1 }

theorem closeAllFold_counts (tickOracle : String → Option Tick)
    (sendResult : Position → Option OrderSendResult) (mlast : ℤ × String) :
    ∀ (l : List Position) (cl fl : ℕ) (msgs : List String),
      (l.foldl (closeAllStep tickOracle sendResult mlast) (cl, fl, msgs)).1 +
        (l.foldl (closeAllStep tickOracle sendResult mlast) (cl, fl, msgs)).2.1 =
        cl + fl + l.length ∧
      (l.foldl (closeAllStep tickOracle sendResult mlast) (cl, fl, msgs)).2.2.length =
        msgs.length + l.length := by
  intro l
  induction l with
  | nil => intro cl fl msgs; simp
  | cons p rest ih =>
      intro cl fl msgs
      simp only [List.foldl_cons]
      rw [closeAllStep]
      by_cases hp : (closeOne tickOracle sendResult mlast p).1 = true
      · rw [if_pos hp]
        rcases ih (cl + 1) fl (msgs ++ [(closeOne tickOracle sendResult mlast p).2]) with ⟨h1, h2⟩
        refine ⟨by rw [h1]; simp; omega, by rw [h2]; simp; omega⟩
      · rw [if_neg hp]
        rcases ih cl (fl + 1) (msgs ++ [(closeOne tickOracle sendResult mlast p).2]) with ⟨h1, h2⟩
        refine ⟨by rw [h1]; simp; omega, by rw [h2]; simp; omega⟩

/-- C6: for every close-all invocation over a non-empty set of matching
open positions, each attempted position is counted exactly once as closed
or failed (closedCount + failedCount equals the number of positions
attempted), the call returns overall success iff failedCount = 0, and the
returned message always carries the closed/failed summary (it extends the
summary header), even on partial failure. -/
theorem close_all_summary_invariant (m : Mt5) (positionsOracle : List Position)
    (sendResult : Position → Option OrderSendResult) (magic : Option ℤ)
    (hconn : m.connected = true)
    (hne : get_open_positions m positionsOracle magic ≠ []) :
    (close_all_trades m positionsOracle sendResult magic).closed_count +
      (close_all_trades m positionsOracle sendResult magic).failed_count =
      (get_open_positions m positionsOracle magic).length ∧
    ((close_all_trades m positionsOracle sendResult magic).ok = true ↔
      (close_all_trades m positionsOracle sendResult magic).failed_count = 0) ∧
    ∃ rest : String,
      (close_all_trades m positionsOracle sendResult magic).message =
        closeAllHeader magic
          (close_all_trades m positionsOracle sendResult magic).closed_count
          (close_all_trades m positionsOracle sendResult magic).failed_count ++ rest := by
  have hcounts := closeAllFold_counts m.tick sendResult m.last_error
    (get_open_positions m positionsOracle magic) 0 0 []
  rcases hcounts with ⟨h1, h2⟩
  have hmsgs :
      ((get_open_positions m positionsOracle magic).foldl
        (closeAllStep m.tick sendResult m.last_error) (0, 0, [])).2.2 ≠ [] := by
    intro hempty
    rw [hempty] at h2
    simp at h2
    exact hne (List.eq_nil_of_length_eq_zero h2.symm)
  rw [close_all_trades, if_neg (by simp [hconn]), if_neg hne]
  simp only
  refine ⟨by simpa using h1, by simp, ?_⟩
  rw [if_neg hmsgs]
  exact ⟨_, String.append_assoc _ _ _⟩

/-- Positions oracle for the C6 witness: two positions under magic 7. -/
def positionsC6 : List Position :=
  [ { symbol := "XAUUSD", volume := 1/10, ticket := 11, ptype := 0, magic := 7 },
    { symbol := "BTCUSD", volume := 2/10, ticket := 12, ptype := 1, magic := 7 } ]

/-- Venue state for the C6 witness: ticks exist for both symbols. -/
def mC6 : Mt5 :=
  { connected := true, account := none,
    symbolInfo := fun _ => none,
    tick := fun _ => some { bid := 2000, ask := 2001, spread := some 10 },
    order_check := none, order_send := none, last_error := (10018, "Market is closed") }

/-- Order-send oracle for the C6 witness: ticket 11 closes, ticket 12 is
rejected. -/
def sendResultC6 : Position → Option OrderSendResult :=
  fun p =>
    if p.ticket = 11 then
      some { retcode := 10009, deal := 501, order := 601, comment := "done" }
    else
      some { retcode := 10019, deal := 0, order := 0, comment := "no money" }

/-- Witness for `close_all_summary_invariant`: two attempted positions, one
closes and one fails, so counts are 1 + 1 = 2, the call reports failure,
and the message extends the summary header. -/
theorem close_all_summary_invariant_witness :
    (close_all_trades mC6 positionsC6 sendResultC6 (some 7)).closed_count +
      (close_all_trades mC6 positionsC6 sendResultC6 (some 7)).failed_count =
      (get_open_positions mC6 positionsC6 (some 7)).length ∧
    ((close_all_trades mC6 positionsC6 sendResultC6 (some 7)).ok = true ↔
      (close_all_trades mC6 positionsC6 sendResultC6 (some 7)).failed_count = 0) ∧
    ∃ rest : String,
      (close_all_trades mC6 positionsC6 sendResultC6 (some 7)).message =
        closeAllHeader (some 7)
          (close_all_trades mC6 positionsC6 sendResultC6 (some 7)).closed_count
          (close_all_trades mC6 positionsC6 sendResultC6 (some 7)).failed_count ++ rest :=
  close_all_summary_invariant mC6 positionsC6 sendResultC6 (some 7) rfl
    (by with_unfolding_all decide)

/-- Second component of the (ok, result-or-message) pairs returned by
`send_order` and `execute_trade_from_signal_data`: either a message string
or the venue's result object. -/
inductive SendRet where
  | msg (s : String)
  | res (r : OrderSendResult)
deriving DecidableEq

/-- MT5Manager.send_order (src/mt5_manager.py lines 250-313): resolve a
market price from a fresh tick when none is given, validate the request
with `order_check` (a non-done validation is a terminal failure), submit
with `order_send` (a null result is a failure carrying the venue's last
error), and resolve the result code: "done" (10009) or "placed" (10008) is
success returning the result object; every other code maps through the
static lookup table into a failure message. -/
def send_order (m : Mt5) (symbol : String) (order_type : String)
    (volume : ℚ) (price : Option ℚ) (sl tp : ℚ) (comment : String) :
    Bool × SendRet :=
  if ¬ m.connected then (false, .msg "Not connected to MT5")
  else
    match m.tick symbol with
    | none =>
        (false, .msg ("Failed to get tick for " ++ symbol ++ " to determine price."))
    | some current_tick =>
        if order_type.toLower = "buy" ∨ order_type.toLower = "sell" then
          let price' :=
            match price with
            | none =>
                if order_type.toLower = "buy" then current_tick.ask
                else current_tick.bid
            | some p => p
          if price' ≤ 0 then
            (false, .msg ("Order price for " ++ symbol ++ " is invalid (" ++
              qStr price' ++ "). Tick Ask: " ++ qStr current_tick.ask ++
              ", Bid: " ++ qStr current_tick.bid))
          else
            match m.order_check with
            | none =>
                (false, .msg ("Order check failed: " ++
                  get_retcode_description m.last_error.1 ++ " (" ++
                  m.last_error.2 ++ ")"))
            | some check_result =>
                if check_result.retcode ≠ TRADE_RETCODE_DONE then
                  (false, .msg ("Order check failed: " ++ check_result.comment ++
                    " (" ++ get_retcode_description check_result.retcode ++ ")"))
                else
                  match m.order_send with
                  | none =>
                      (false, .msg ("Order send failed: " ++
                        get_retcode_description m.last_error.1 ++ " (" ++
                        m.last_error.2 ++ ")"))
                  | some result =>
                      if result.retcode = TRADE_RETCODE_DONE ∨
                          result.retcode = TRADE_RETCODE_PLACED then
                        (true, .res result)
                      else
                        (false, .msg ("Order send failed: " ++ result.comment ++
                          " (Code: " ++ toString result.retcode ++ " - " ++
                          get_retcode_description result.retcode ++ ")"))
        else (false, .msg "Invalid order type specified")

/-- A row of the signals DataFrame as consumed by the execution core
(`signal_data.get(...)` fields).  `none` models a missing/NaN value;
`confidence` is the already-coerced numeric confidence. -/
structure Signal where
  time : Option String
  Symbol : Option String
  signal : String
  confidence : Option ℚ
  spread_pips : Option ℚ
  stop_loss_pips : Option ℚ
  take_profit_pips : Option ℚ
  close : Option ℚ
  notes : String
deriving DecidableEq

/-- An `_update_signal_status_in_df(time, symbol, executed, note)` request
issued by the execution core (src/trading_app_main.py lines 156-201 write
`executed` and `notes` into the rows matching (time, Symbol)). -/
structure SigUpdate where
  timeId : Option String
  symbol : Option String
  executed : Bool
  note : String
deriving DecidableEq

/-- The GUI signals-table selection consulted when a manual trade is
triggered without a signal argument (src/trading_app_main.py lines
1812-1836), abstracted to its three outcomes. -/
inductive TableSel where
  | noneSelected
  | outOfBounds
  | selected (s : Signal)
deriving DecidableEq

/-- Ambient state read by `execute_trade_from_signal_data`: effective
settings, venue state, the news flag, the per-symbol last-trade-time map
(seconds since epoch), the current UTC instant (epoch seconds and seconds
since midnight), the table selection, the manual confirmation dialog's
answer, and the built order comment (whose construction, lines 2003-2014,
is presentation detail abstracted into a string no claim depends on). -/
structure AppEnv where
  settings : Settings
  mt5 : Mt5
  trading_allowed_by_news : Bool
  last_trade_time : String → Option ℚ
  nowSec : ℚ
  nowTod : ℚ
  tableSelection : TableSel
  userConfirmsManual : Bool
  tradeComment : String

/-- Result of one `execute_trade_from_signal_data` call: the returned
(ok, result-or-message) pair, the signal-status update request issued (if
any), the per-symbol last-trade-time map after the call, and whether the
sizing step (step 9) and the order submission (step 12) were reached. -/
structure ExecResult where
  ok : Bool
  ret : SendRet
  sigUpdate : Option SigUpdate
  last_trade_time : String → Option ℚ
  sizingDone : Bool
  orderSent : Bool

/-- The log prefix of an execution attempt (src/trading_app_main.py
line 1782). -/
def srcPfx (is_auto_trade : Bool) : String :=
  if is_auto_trade then "AutoTrade" else "ManualTrade"

/-- Signal-status update issued by the first three gates, which guard only
on the presence of the signal argument (src/trading_app_main.py lines
1792, 1800, 1808). -/
def earlyUpdate (signal_data : Option Signal) (note : String) : Option SigUpdate :=
  match signal_data with
  | some s => some { timeId := s.time, symbol := s.Symbol, executed := false, note := note }
  | none => none

/-- Signal-status update issued by the later steps, which guard on the
truthiness of the captured time and symbol (`if signal_time_for_update and
signal_symbol_for_update`). -/
def guardedUpdate (sig : Signal) (note : String) (executed : Bool) : Option SigUpdate :=
  if pyTruthy sig.time ∧ pyTruthy sig.Symbol then
    some { timeId := sig.time, symbol := sig.Symbol, executed := executed, note := note }
  else none

/-- A blocked-attempt result: (False, note) with the given signal update,
no order sent, the map untouched. -/
def blockedResult (env : AppEnv) (upd : Option SigUpdate) (note : String)
    (sized : Bool) : ExecResult :=
  { ok := false, ret := .msg note, sigUpdate := upd,
    last_trade_time := env.last_trade_time, sizingDone := sized,
    orderSent := false }

/-- The symbol string of a signal (meaningful once the missing-symbol gate
has passed). -/
def sigSymbol (sig : Signal) : String := sig.Symbol.getD ""

/-- The resolved order type string: the override (when truthy) or the
signal's type, lower-cased (src/trading_app_main.py line 1849). -/
def finalOrderTypeStr (sig : Signal) (override : Option String) : String :=
  if pyTruthy override then (override.getD "").toLower else sig.signal.toLower

/-- The symbol-specific minimum-interval setting key
(src/trading_app_main.py line 1866). -/
def symKeyOf (symbol : String) : String :=
  "min_trade_interval_minutes_" ++ (symbol.toLower.replace "/" "_")

/-- The effective minimum trade interval in minutes for a signal's symbol. -/
def effectiveMinInterval (s : Settings) (sig : Signal) : ℚ :=
  s.min_trade_interval_minutes (symKeyOf (sigSymbol sig))

/-- Remaining wait seconds reported by the re-entry gate
(`int(wait_time.total_seconds())`; truncation of a positive value is the
floor). -/
def intervalWaitSec (env : AppEnv) (sig : Signal) : ℤ :=
  match env.last_trade_time (sigSymbol sig) with
  | some t =>
      Rat.floor (effectiveMinInterval env.settings sig * 60 - (env.nowSec - t))
  | none => 0

/-- The symbol-class spread ceiling (src/trading_app_main.py lines
1903-1908): gold and bitcoin ceilings, 0 (= unlimited) for others by
default. -/
def maxAllowedSpread (s : Settings) (symbol : String) : ℚ :=
  if symbol = s.gold_symbol then s.max_allowed_spread_points_gold
  else if symbol = s.bitcoin_symbol then s.max_allowed_spread_points_bitcoin
  else s.max_allowed_spread_points_other

/-- The spread used by the spread gate: the live spread from the manager,
falling back to the signal's recorded spread (src/trading_app_main.py
lines 1891-1901). -/
def determinedSpread (env : AppEnv) (sig : Signal) : Option ℚ :=
  match get_current_spread env.mt5 (sigSymbol sig) with
  | some z => some (z : ℚ)
  | none => sig.spread_pips

/-- The effective stop-loss distance used for lot sizing
(src/trading_app_main.py lines 1919-1934): the global default, overridden
by the gold/bitcoin symbol-specific setting, overridden by a valid positive
value from the signal. -/
def effectiveSlForLot (s : Settings) (symbol : String) (sig : Signal) : ℚ :=
  let base :=
    if symbol = s.gold_symbol then s.gold_sl_pips
    else if symbol = s.bitcoin_symbol then s.btc_sl_pips
    else s.default_sl_pips
  match sig.stop_loss_pips with
  | some v => if 0 < v then v else base
  | none => base


/-- Step 9 of the pipeline (src/trading_app_main.py lines 1917-1944): lot
sizing via `calculate_lot_size_advanced` followed by the minimum-volume
adjustment and rounding to the symbol's volume precision. -/
def computeLot (m : Mt5) (s : Settings) (symbol : String) (sig : Signal)
    (symbol_info : SymbolInfo) : ℚ :=
  let risk_percent := s.risk_percent_per_trade
  let effective_sl_pips_for_lot := effectiveSlForLot s symbol sig
  let lot0 := calculate_lot_size_advanced m symbol risk_percent
    effective_sl_pips_for_lot
  let volume_digits_precision := symbol_info.volume_digits.getD 2
  let min_vol_trade0 := symbol_info.volume_min
  let min_vol_trade := if min_vol_trade0 ≤ 0 then 1/100 else min_vol_trade0
  let lot1 := if lot0 ≤ 0 ∨ lot0 < min_vol_trade then min_vol_trade else lot0
  pyRoundTo lot1 volume_digits_precision

/-- The reference price for SL/TP computation (src/trading_app_main.py
lines 1955-1962): the signal's close price when valid, else the
direction-appropriate side of the fresh tick. -/
def priceRefOf (sig : Signal) (tick : Tick) (orderType : String) : ℚ :=
  let market_price := if orderType = "buy" then tick.ask else tick.bid
  match sig.close with
  | some c => if c ≤ 0 then market_price else c
  | none => market_price

/-- Steps determining the final SL and TP prices (src/trading_app_main.py
lines 1970-1999): settings defaults, gold/bitcoin overrides, signal
overrides when positive, then price arithmetic rounded to the symbol's
digits (0.0 when the respective distance is not positive). -/
def slTpPrices (s : Settings) (symbol : String) (sig : Signal)
    (symbol_info : SymbolInfo) (orderType : String) (price_ref : ℚ) : ℚ × ℚ :=
  let point_size := symbol_info.point
  let digits := symbol_info.digits
  let effective_sl_pips_for_lot := effectiveSlForLot s symbol sig
  let slSigValid :=
    match sig.stop_loss_pips with
    | some v => decide (0 < v)
    | none => false
  let effective_tp0 :=
    if symbol = s.gold_symbol then s.gold_tp_pips
    else if symbol = s.bitcoin_symbol then s.btc_tp_pips
    else s.default_tp_pips
  let effective_sl0 :=
    if slSigValid then effective_sl_pips_for_lot
    else if symbol = s.gold_symbol then s.gold_sl_pips
    else if symbol = s.bitcoin_symbol then s.btc_sl_pips
    else effective_sl_pips_for_lot
  let effective_tp :=
    match sig.take_profit_pips with
    | some v => if 0 < v then v else effective_tp0
    | none => effective_tp0
  let effective_sl :=
    match sig.stop_loss_pips with
    | some v => if 0 < v then v else effective_sl0
    | none => effective_sl0
  let final_sl_price :=
    if orderType = "buy" then
      (if 0 < effective_sl then
        pyRoundTo (price_ref - effective_sl * point_size) digits
       else 0)
    else
      (if 0 < effective_sl then
        pyRoundTo (price_ref + effective_sl * point_size) digits
       else 0)
  let final_tp_price :=
    if orderType = "buy" then
      (if 0 < effective_tp then
        pyRoundTo (price_ref + effective_tp * point_size) digits
       else 0)
    else
      (if 0 < effective_tp then
        pyRoundTo (price_ref - effective_tp * point_size) digits
       else 0)
  (final_sl_price, final_tp_price)

/-- `p if p > 0 else 0.0`, applied to the SL/TP arguments of the order
request (src/trading_app_main.py lines 2041-2042). -/
def nonNegPrice (p : ℚ) : ℚ := if 0 < p then p else 0

/-- execute_trade_from_signal_data (src/trading_app_main.py lines
1781-2077), the full per-attempt pipeline: time filter, news filter,
connectivity, signal retrieval (table selection when no signal argument),
signal-type and symbol validity, per-symbol re-entry interval, symbol
info fetch, spread ceiling (live spread with fallback to the signal's),
lot sizing via `calculate_lot_size_advanced` with the minimum-volume
adjustment (lines 1938-1944), tick fetch and SL/TP price computation,
manual confirmation, order submission via `send_order`, and result
processing (per-symbol last-trade-time update and signal-status
persistence on success). -/
def execute_trade_from_signal_data (env : AppEnv) (signal_data : Option Signal)
    (order_type_override : Option String) (is_auto_trade : Bool) : ExecResult :=
  let pfx := srcPfx is_auto_trade
  if ¬ is_trading_time_allowed env.settings env.nowTod then
    blockedResult env (earlyUpdate signal_data (pfx ++ ": Blocked by time filter"))
      (pfx ++ ": Blocked by time filter") false
  else if (¬ env.trading_allowed_by_news) ∧ env.settings.halt_trades_on_news then
    blockedResult env (earlyUpdate signal_data (pfx ++ ": Blocked by news event"))
      (pfx ++ ": Blocked by news event") false
  else if ¬ env.mt5.connected then
    blockedResult env (earlyUpdate signal_data (pfx ++ ": MT5 not connected"))
      (pfx ++ ": MT5 not connected") false
  else
    match (match signal_data with
           | some s => Sum.inr s
           | none =>
               match env.tableSelection with
               | .noneSelected => Sum.inl "No signal selected from table"
               | .outOfBounds =>
                   Sum.inl "Selected row index out of bounds for displayed signals"
               | .selected s => Sum.inr s) with
    | Sum.inl m => blockedResult env none m false
    | Sum.inr sig =>
        let symbol := sigSymbol sig
        let final_order_type_str := finalOrderTypeStr sig order_type_override
        if final_order_type_str ≠ "buy" ∧ final_order_type_str ≠ "sell" then
          blockedResult env
            (guardedUpdate sig (pfx ++ ": Invalid signal type \x27" ++
              final_order_type_str ++ "\x27 for " ++ pyStr sig.Symbol) false)
            (pfx ++ ": Invalid signal type \x27" ++ final_order_type_str ++
              "\x27 for " ++ pyStr sig.Symbol) false
        else if (¬ pyTruthy sig.Symbol) ∨ (pyStr sig.Symbol).trim = "" ∨
            (pyStr sig.Symbol).toLower = "n/a" then
          blockedResult env
            (guardedUpdate sig (pfx ++ ": Missing symbol in signal data") false)
            (pfx ++ ": Missing symbol in signal data") false
        else
          let min_trade_interval_minutes :=
            env.settings.min_trade_interval_minutes (symKeyOf symbol)
          let intervalBlocked :=
            match env.last_trade_time symbol with
            | some lastT =>
                decide (0 < min_trade_interval_minutes) &&
                  decide (env.nowSec - lastT < min_trade_interval_minutes * 60)
            | none => false
          if intervalBlocked then
            blockedResult env
              (guardedUpdate sig (pfx ++ ": Min interval for " ++ symbol ++
                " (" ++ qStr min_trade_interval_minutes ++
                "m) not met. Wait " ++ toString (intervalWaitSec env sig / 60) ++
                "m " ++ toString (intervalWaitSec env sig % 60) ++ "s.") false)
              (pfx ++ ": Min interval for " ++ symbol ++ " (" ++
                qStr min_trade_interval_minutes ++ "m) not met. Wait " ++
                toString (intervalWaitSec env sig / 60) ++ "m " ++
                toString (intervalWaitSec env sig % 60) ++ "s.") false
          else
            match get_symbol_info env.mt5 symbol with
            | none =>
                blockedResult env
                  (guardedUpdate sig (pfx ++ ": No symbol info for " ++ symbol ++
                    " from MT5") false)
                  (pfx ++ ": No symbol info for " ++ symbol ++ " from MT5") false
            | some symbol_info =>
                match determinedSpread env sig with
                | none =>
                    blockedResult env
                      (guardedUpdate sig (pfx ++
                        ": Cannot determine current market spread for " ++
                        symbol ++ " (MT5 or signal). Blocking trade.") false)
                      (pfx ++ ": Cannot determine current market spread for " ++
                        symbol ++ " (MT5 or signal). Blocking trade.") false
                | some current_market_spread_points =>
                    let max_allowed_spread := maxAllowedSpread env.settings symbol
                    if 0 < max_allowed_spread ∧
                        max_allowed_spread < current_market_spread_points then
                      blockedResult env
                        (guardedUpdate sig (pfx ++ ": Spread for " ++ symbol ++
                          " (" ++ qStr current_market_spread_points ++
                          " pts) > Max allowed (" ++ qStr max_allowed_spread ++
                          " pts).") false)
                        (pfx ++ ": Spread for " ++ symbol ++ " (" ++
                          qStr current_market_spread_points ++
                          " pts) > Max allowed (" ++ qStr max_allowed_spread ++
                          " pts).") false
                    else
                      let lot := computeLot env.mt5 env.settings symbol sig symbol_info
                      match get_tick env.mt5 symbol with
                      | none =>
                          blockedResult env
                            (guardedUpdate sig (pfx ++ ": No market tick for " ++
                              symbol ++ " available before sending order.") false)
                            (pfx ++ ": No market tick for " ++ symbol ++
                              " available before sending order.") true
                      | some tick_for_order =>
                          let price_ref := priceRefOf sig tick_for_order final_order_type_str
                          if price_ref ≤ 0 then
                            blockedResult env
                              (guardedUpdate sig (pfx ++ ": Market price for " ++
                                symbol ++ " is invalid (" ++ qStr price_ref ++
                                "). Cannot set SL/TP.") false)
                              (pfx ++ ": Market price for " ++ symbol ++
                                " is invalid (" ++ qStr price_ref ++
                                "). Cannot set SL/TP.") true
                          else
                            let prices := slTpPrices env.settings symbol sig
                              symbol_info final_order_type_str price_ref
                            if (¬ is_auto_trade) ∧ (¬ env.userConfirmsManual) then
                              blockedResult env
                                (guardedUpdate sig (pfx ++
                                  ": User cancelled manual trade for " ++ symbol ++
                                  ".") false)
                                (pfx ++ ": User cancelled manual trade for " ++
                                  symbol ++ ".") true
                            else
                              let mkFail := fun (errMsg : String) =>
                                ({ ok := false, ret := SendRet.msg errMsg,
                                   sigUpdate := guardedUpdate sig
                                     (pfx ++ ": Failed - " ++ errMsg) false,
                                   last_trade_time := env.last_trade_time,
                                   sizingDone := true, orderSent := true } : ExecResult)
                              match send_order env.mt5 symbol final_order_type_str
                                  lot none (nonNegPrice prices.1)
                                  (nonNegPrice prices.2) env.tradeComment with
                              | (true, SendRet.res result) =>
                                  if 0 < result.order then
                                    { ok := true, ret := .res result,
                                      sigUpdate := guardedUpdate sig
                                        (pfx ++ ": Executed. Order ID: " ++
                                          toString result.order) true,
                                      last_trade_time := fun s2 =>
                                        if s2 = symbol then some env.nowSec
                                        else env.last_trade_time s2,
                                      sizingDone := true, orderSent := true }
                                  else
                                    mkFail ("Unknown order send error" ++
                                      (if result.comment ≠ "" then
                                        " (Broker: " ++ result.comment ++ ")"
                                       else ""))
                              | (true, SendRet.msg s) => mkFail s
                              | (false, SendRet.msg s) => mkFail s
                              | (false, SendRet.res result) =>
                                  mkFail ("Unknown order send error" ++
                                    (if result.comment ≠ "" then
                                      " (Broker: " ++ result.comment ++ ")"
                                     else ""))

/-- auto_execute_model_signal_if_conditions_met (src/trading_app_main.py
lines 2080-2125): reject when auto-trading is disabled, when disconnected,
or when the signal's confidence misses the threshold, each with its note;
when the global auto-trade lock is already held, reject immediately with
the lock-active note and do not call the execution pipeline; otherwise
acquire the lock and run `execute_trade_from_signal_data` as an automatic
trade. -/
structure AutoResult where
  executedCall : Option ExecResult
  update : Option SigUpdate

/-- See `AutoResult`. -/
def auto_execute_model_signal_if_conditions_met (env : AppEnv)
    (lockHeld : Bool) (sig : Signal) : AutoResult :=
  if ¬ env.settings.auto_trade_enabled then
    { executedCall := none,
      update := some { timeId := sig.time, symbol := sig.Symbol,
                       executed := false,
                       note := "AutoTrade: Disabled in settings." } }
  else if ¬ env.mt5.connected then
    { executedCall := none,
      update := some { timeId := sig.time, symbol := sig.Symbol,
                       executed := false,
                       note := "AutoTrade: MT5 not connected for " ++
                         pyStr sig.Symbol ++ " at signal time." } }
  else
    let meets :=
      match sig.confidence with
      | some c => decide (env.settings.auto_trade_min_confidence ≤ c)
      | none => false
    if meets then
      if lockHeld then
        { executedCall := none,
          update := some { timeId := sig.time, symbol := sig.Symbol,
                           executed := false,
                           note := "AutoTrade: Lock active (another auto-trade in progress). Skipping current signal to prevent overlap." } }
      else
        { executedCall :=
            some (execute_trade_from_signal_data env (some sig) none true),
          update := none }
    else
      { executedCall := none,
        update := some { timeId := sig.time, symbol := sig.Symbol,
                         executed := false,
                         note := "AutoTrade: Confidence " ++
                           qStr (sig.confidence.getD 0) ++ "% for " ++
                           pyStr sig.Symbol ++ " < threshold " ++
                           qStr env.settings.auto_trade_min_confidence ++
                           "%. Not executed." } }

/-- Top-level dispatch of an execution attempt: the automatic path goes
through `auto_execute_model_signal_if_conditions_met` (which consults the
global lock), while the manual path (buy/sell buttons and context actions,
src/trading_app_main.py lines 427-428) calls
`execute_trade_from_signal_data` directly and never reads the lock. -/
def executeSignalEntry (env : AppEnv) (isAuto lockHeld : Bool)
    (sig : Signal) : AutoResult :=
  if isAuto then auto_execute_model_signal_if_conditions_met env lockHeld sig
  else
    { executedCall :=
        some (execute_trade_from_signal_data env (some sig) none false),
      update := none }

/-- The admission gates of the pipeline, in source order.  The claim's
"signal validity" gate is the pair invalidType/missingSymbol; the spread
gate covers both the undeterminable-spread block and the over-ceiling
block. -/
inductive Gate where
  | timeFilter
  | news
  | connection
  | invalidType
  | missingSymbol
  | reentryInterval
  | spread
deriving DecidableEq

/-- Whether a given gate blocks, as a function of the environment and the
signal (read off the corresponding conditions of
`execute_trade_from_signal_data`). -/
def gateFails (env : AppEnv) (sig : Signal) (override : Option String) :
    Gate → Bool
  | .timeFilter => !(is_trading_time_allowed env.settings env.nowTod)
  | .news => (!env.trading_allowed_by_news) && env.settings.halt_trades_on_news
  | .connection => !env.mt5.connected
  | .invalidType =>
      decide (finalOrderTypeStr sig override ≠ "buy" ∧
        finalOrderTypeStr sig override ≠ "sell")
  | .missingSymbol =>
      decide ((¬ pyTruthy sig.Symbol) ∨ (pyStr sig.Symbol).trim = "" ∨
        (pyStr sig.Symbol).toLower = "n/a")
  | .reentryInterval =>
      (match env.last_trade_time (sigSymbol sig) with
       | some lastT =>
           decide (0 < effectiveMinInterval env.settings sig) &&
             decide (env.nowSec - lastT < effectiveMinInterval env.settings sig * 60)
       | none => false)
  | .spread =>
      (match determinedSpread env sig with
       | none => true
       | some sp =>
           decide (0 < maxAllowedSpread env.settings (sigSymbol sig) ∧
             maxAllowedSpread env.settings (sigSymbol sig) < sp))

/-- The first gate (in the fixed source order) that blocks, if any. -/
def firstFailingGate (env : AppEnv) (sig : Signal)
    (override : Option String) : Option Gate :=
  if gateFails env sig override .timeFilter then some .timeFilter
  else if gateFails env sig override .news then some .news
  else if gateFails env sig override .connection then some .connection
  else if gateFails env sig override .invalidType then some .invalidType
  else if gateFails env sig override .missingSymbol then some .missingSymbol
  else if gateFails env sig override .reentryInterval then some .reentryInterval
  else if gateFails env sig override .spread then some .spread
  else none

/-- The blocking reason attached by each gate (the exact note string the
code produces, with numeric rendering abstracted by `qStr`). -/
def gateNote (env : AppEnv) (sig : Signal) (override : Option String)
    (pfx : String) : Gate → String
  | .timeFilter => pfx ++ ": Blocked by time filter"
  | .news => pfx ++ ": Blocked by news event"
  | .connection => pfx ++ ": MT5 not connected"
  | .invalidType =>
      pfx ++ ": Invalid signal type \x27" ++ finalOrderTypeStr sig override ++
        "\x27 for " ++ pyStr sig.Symbol
  | .missingSymbol => pfx ++ ": Missing symbol in signal data"
  | .reentryInterval =>
      pfx ++ ": Min interval for " ++ sigSymbol sig ++ " (" ++
        qStr (effectiveMinInterval env.settings sig) ++ "m) not met. Wait " ++
        toString (intervalWaitSec env sig / 60) ++ "m " ++
        toString (intervalWaitSec env sig % 60) ++ "s."
  | .spread =>
      (match determinedSpread env sig with
       | none =>
           pfx ++ ": Cannot determine current market spread for " ++
             sigSymbol sig ++ " (MT5 or signal). Blocking trade."
       | some sp =>
           pfx ++ ": Spread for " ++ sigSymbol sig ++ " (" ++ qStr sp ++
             " pts) > Max allowed (" ++
             qStr (maxAllowedSpread env.settings (sigSymbol sig)) ++ " pts).")

/-- The signal-status update a blocking gate issues: the first three gates
guard only on the signal being present, the later gates on truthy time and
symbol. -/
def gateUpdate (sig : Signal) (note : String) : Gate → Option SigUpdate
  | .timeFilter =>
      some { timeId := sig.time, symbol := sig.Symbol, executed := false, note := note }
  | .news =>
      some { timeId := sig.time, symbol := sig.Symbol, executed := false, note := note }
  | .connection =>
      some { timeId := sig.time, symbol := sig.Symbol, executed := false, note := note }
  | _ => guardedUpdate sig note false

theorem gatePass_time {env : AppEnv} {sig : Signal} {override : Option String}
    (h : ¬ gateFails env sig override .timeFilter = true) :
    is_trading_time_allowed env.settings env.nowTod = true := by
  rw [Bool.not_eq_true] at h
  simpa [gateFails] using h

theorem gatePass_news {env : AppEnv} {sig : Signal} {override : Option String}
    (h : ¬ gateFails env sig override .news = true) :
    ¬ ((¬ env.trading_allowed_by_news) ∧ env.settings.halt_trades_on_news) := by
  rw [Bool.not_eq_true] at h
  rintro ⟨ha, hb⟩
  simp only [gateFails] at h
  rw [Bool.not_eq_true] at ha
  rw [ha] at h
  simp at h
  exact absurd hb (by simp [h])

theorem gatePass_conn {env : AppEnv} {sig : Signal} {override : Option String}
    (h : ¬ gateFails env sig override .connection = true) :
    env.mt5.connected = true := by
  rw [Bool.not_eq_true] at h
  simpa [gateFails] using h

theorem gatePass_invalidType {env : AppEnv} {sig : Signal} {override : Option String}
    (h : ¬ gateFails env sig override .invalidType = true) :
    ¬ (finalOrderTypeStr sig override ≠ "buy" ∧
        finalOrderTypeStr sig override ≠ "sell") :=
  of_decide_eq_false (Bool.not_eq_true _ ▸ h)

theorem gatePass_missingSymbol {env : AppEnv} {sig : Signal} {override : Option String}
    (h : ¬ gateFails env sig override .missingSymbol = true) :
    ¬ ((¬ pyTruthy sig.Symbol) ∨ (pyStr sig.Symbol).trim = "" ∨
        (pyStr sig.Symbol).toLower = "n/a") :=
  of_decide_eq_false (Bool.not_eq_true _ ▸ h)

theorem exec_blocked_of_firstFailingGate (env : AppEnv) (sig : Signal)
    (override : Option String) (is_auto : Bool) (g : Gate)
    (hg : firstFailingGate env sig override = some g)
    (hsi : g = Gate.spread → (env.mt5.symbolInfo (sigSymbol sig)).isSome = true) :
    execute_trade_from_signal_data env (some sig) override is_auto =
      blockedResult env
        (gateUpdate sig (gateNote env sig override (srcPfx is_auto) g) g)
        (gateNote env sig override (srcPfx is_auto) g) false := by
  unfold firstFailingGate at hg
  split_ifs at hg with h1 h2 h3 h4 h5 h6 h7
  · injection hg with hge
    subst hge
    simp only [gateFails, Bool.not_eq_true'] at h1
    simp only [execute_trade_from_signal_data, h1, Bool.false_eq_true,
      not_false_iff, if_true, if_pos]
    simp [blockedResult, earlyUpdate, gateUpdate, gateNote]
  · injection hg with hge
    subst hge
    have h1' := gatePass_time h1
    simp only [gateFails, Bool.and_eq_true, Bool.not_eq_true'] at h2
    simp only [execute_trade_from_signal_data, h1', not_true,
      if_false, h2.1, h2.2, Bool.false_eq_true, not_false_iff, true_and, if_true]
    simp [blockedResult, earlyUpdate, gateUpdate, gateNote]
  · injection hg with hge
    subst hge
    have h1' := gatePass_time h1
    have h2' := gatePass_news h2
    simp only [gateFails, Bool.not_eq_true'] at h3
    simp only [execute_trade_from_signal_data, h1', not_true, if_false,
      if_neg h2', h3, Bool.false_eq_true, not_false_iff, if_true]
    simp [blockedResult, earlyUpdate, gateUpdate, gateNote]
  · injection hg with hge
    subst hge
    have h1' := gatePass_time h1
    have h2' := gatePass_news h2
    have h3' := gatePass_conn h3
    have h4' : finalOrderTypeStr sig override ≠ "buy" ∧
        finalOrderTypeStr sig override ≠ "sell" := of_decide_eq_true h4
    simp only [execute_trade_from_signal_data, h1', not_true, if_false,
      if_neg h2', h3', if_pos h4']
    simp [blockedResult, gateUpdate, gateNote]
  · injection hg with hge
    subst hge
    have h1' := gatePass_time h1
    have h2' := gatePass_news h2
    have h3' := gatePass_conn h3
    have h4' := gatePass_invalidType h4
    have h5' : (¬ pyTruthy sig.Symbol) ∨ (pyStr sig.Symbol).trim = "" ∨
        (pyStr sig.Symbol).toLower = "n/a" := of_decide_eq_true h5
    simp only [execute_trade_from_signal_data, h1', not_true, if_false,
      if_neg h2', h3', if_neg h4', if_pos h5']
    simp [blockedResult, gateUpdate, gateNote]
  · injection hg with hge
    subst hge
    have h1' := gatePass_time h1
    have h2' := gatePass_news h2
    have h3' := gatePass_conn h3
    have h4' := gatePass_invalidType h4
    have h5' := gatePass_missingSymbol h5
    simp only [gateFails, effectiveMinInterval] at h6
    simp only [execute_trade_from_signal_data, h1', not_true, if_false,
      if_neg h2', h3', if_neg h4', if_neg h5', h6, if_true]
    simp [blockedResult, gateUpdate, gateNote, effectiveMinInterval]
  · injection hg with hge
    subst hge
    have h1' := gatePass_time h1
    have h2' := gatePass_news h2
    have h3' := gatePass_conn h3
    have h4' := gatePass_invalidType h4
    have h5' := gatePass_missingSymbol h5
    rw [Bool.not_eq_true] at h6
    simp only [gateFails, effectiveMinInterval] at h6
    have hsome := hsi rfl
    rcases hsiv : env.mt5.symbolInfo (sigSymbol sig) with _ | si
    · rw [hsiv] at hsome
      simp at hsome
    rcases hds : determinedSpread env sig with _ | sp
    · simp only [execute_trade_from_signal_data, h1', not_true, if_false,
        if_neg h2', h3', if_neg h4', if_neg h5', h6, Bool.false_eq_true,
        not_false_iff, if_false, get_symbol_info, if_true, hsiv, hds]
      simp [blockedResult, gateUpdate, gateNote, hds]
    · simp only [gateFails, hds] at h7
      have h7' : 0 < maxAllowedSpread env.settings (sigSymbol sig) ∧
          maxAllowedSpread env.settings (sigSymbol sig) < sp := of_decide_eq_true h7
      simp only [execute_trade_from_signal_data, h1', not_true, if_false,
        if_neg h2', h3', if_neg h4', if_neg h5', h6, Bool.false_eq_true,
        not_false_iff, if_false, get_symbol_info, if_true, hsiv, hds, if_pos h7']
      simp [blockedResult, gateUpdate, gateNote, hds]

/-- Structural invariant of one execution attempt: submission implies
sizing, a failed attempt leaves the last-trade-time map untouched, and a
successful attempt carries the venue result (with positive order id),
stamps the symbol's last trade time with the current instant, and persists
the executed flag on the signal. -/
def execInvariant (env : AppEnv) (sig : Signal) (is_auto : Bool)
    (r : ExecResult) : Prop :=
  (r.orderSent = true → r.sizingDone = true) ∧
  (r.ok = false → r.last_trade_time = env.last_trade_time) ∧
  (r.ok = true → ∃ res : OrderSendResult,
    r.ret = SendRet.res res ∧ 0 < res.order ∧
    r.last_trade_time =
      (fun s2 => if s2 = sigSymbol sig then some env.nowSec
                 else env.last_trade_time s2) ∧
    r.sigUpdate = guardedUpdate sig (srcPfx is_auto ++
      ": Executed. Order ID: " ++ toString res.order) true ∧
    r.sizingDone = true ∧ r.orderSent = true)

theorem execInvariant_blocked (env : AppEnv) (sig : Signal) (is_auto : Bool)
    (u : Option SigUpdate) (n : String) (sized : Bool) :
    execInvariant env sig is_auto (blockedResult env u n sized) := by
  simp [execInvariant, blockedResult]

theorem execInvariant_fail (env : AppEnv) (sig : Signal) (is_auto : Bool)
    (e : String) (u : Option SigUpdate) :
    execInvariant env sig is_auto
      { ok := false, ret := SendRet.msg e, sigUpdate := u,
        last_trade_time := env.last_trade_time, sizingDone := true,
        orderSent := true } := by
  simp [execInvariant]

theorem execInvariant_success (env : AppEnv) (sig : Signal) (is_auto : Bool)
    (result : OrderSendResult) (h : 0 < result.order) :
    execInvariant env sig is_auto
      { ok := true, ret := SendRet.res result,
        sigUpdate := guardedUpdate sig (srcPfx is_auto ++
          ": Executed. Order ID: " ++ toString result.order) true,
        last_trade_time := fun s2 =>
          if s2 = sigSymbol sig then some env.nowSec
          else env.last_trade_time s2,
        sizingDone := true, orderSent := true } :=
  ⟨by simp, by simp, fun _ => ⟨result, rfl, h, rfl, rfl, rfl, rfl⟩⟩

theorem exec_shape (env : AppEnv) (sig : Signal) (override : Option String)
    (is_auto : Bool) :
    execInvariant env sig is_auto
      (execute_trade_from_signal_data env (some sig) override is_auto) := by
  unfold execute_trade_from_signal_data
  dsimp only
  by_cases hA : is_trading_time_allowed env.settings env.nowTod = true
  case neg => rw [if_pos hA]; exact execInvariant_blocked ..
  rw [if_neg (not_not_intro hA)]
  by_cases hB : (¬ env.trading_allowed_by_news = true) ∧
      env.settings.halt_trades_on_news = true
  case pos => rw [if_pos hB]; exact execInvariant_blocked ..
  rw [if_neg hB]
  by_cases hC : env.mt5.connected = true
  case neg => rw [if_pos hC]; exact execInvariant_blocked ..
  rw [if_neg (not_not_intro hC)]
  by_cases hD : finalOrderTypeStr sig override ≠ "buy" ∧
      finalOrderTypeStr sig override ≠ "sell"
  case pos => rw [if_pos hD]; exact execInvariant_blocked ..
  rw [if_neg hD]
  by_cases hE : (¬ pyTruthy sig.Symbol = true) ∨
      (pyStr sig.Symbol).trim = "" ∨ (pyStr sig.Symbol).toLower = "n/a"
  case pos => rw [if_pos hE]; exact execInvariant_blocked ..
  rw [if_neg hE]
  have hIntEq : (match env.last_trade_time (sigSymbol sig) with
      | some lastT =>
          decide (0 < env.settings.min_trade_interval_minutes (symKeyOf (sigSymbol sig))) &&
            decide (env.nowSec - lastT <
              env.settings.min_trade_interval_minutes (symKeyOf (sigSymbol sig)) * 60)
      | none => false) = gateFails env sig override Gate.reentryInterval := rfl
  rw [hIntEq]
  by_cases hF : gateFails env sig override Gate.reentryInterval = true
  case pos => rw [if_pos hF]; exact execInvariant_blocked ..
  rw [if_neg hF]
  rcases hsiv : get_symbol_info env.mt5 (sigSymbol sig) with _ | symbol_info
  · exact execInvariant_blocked ..
  rcases hds : determinedSpread env sig with _ | current_market_spread_points
  · exact execInvariant_blocked ..
  dsimp only
  by_cases hG : 0 < maxAllowedSpread env.settings (sigSymbol sig) ∧
      maxAllowedSpread env.settings (sigSymbol sig) < current_market_spread_points
  case pos => rw [if_pos hG]; exact execInvariant_blocked ..
  rw [if_neg hG]
  rcases ht : get_tick env.mt5 (sigSymbol sig) with _ | tick_for_order
  · exact execInvariant_blocked ..
  dsimp only
  by_cases hH : priceRefOf sig tick_for_order (finalOrderTypeStr sig override) ≤ 0
  case pos => rw [if_pos hH]; exact execInvariant_blocked ..
  rw [if_neg hH]
  by_cases hI : (¬ is_auto = true) ∧ (¬ env.userConfirmsManual = true)
  case pos => rw [if_pos hI]; exact execInvariant_blocked ..
  rw [if_neg hI]
  rcases hsend : send_order env.mt5 (sigSymbol sig) (finalOrderTypeStr sig override)
      (computeLot env.mt5 env.settings (sigSymbol sig) sig symbol_info) none
      (nonNegPrice (slTpPrices env.settings (sigSymbol sig) sig symbol_info
        (finalOrderTypeStr sig override)
        (priceRefOf sig tick_for_order (finalOrderTypeStr sig override))).1)
      (nonNegPrice (slTpPrices env.settings (sigSymbol sig) sig symbol_info
        (finalOrderTypeStr sig override)
        (priceRefOf sig tick_for_order (finalOrderTypeStr sig override))).2)
      env.tradeComment with ⟨_ | _, s | result⟩
  · exact execInvariant_fail ..
  · exact execInvariant_fail ..
  · exact execInvariant_fail ..
  · dsimp only
    by_cases hJ : 0 < result.order
    · rw [if_pos hJ]
      exact execInvariant_success env sig is_auto result hJ
    · rw [if_neg hJ]
      exact execInvariant_fail ..

theorem firstFailingGate_spread_pass {env : AppEnv} {sig : Signal}
    {override : Option String}
    (hg : firstFailingGate env sig override = some Gate.spread) :
    (¬ gateFails env sig override .timeFilter = true) ∧
    (¬ gateFails env sig override .news = true) ∧
    (¬ gateFails env sig override .connection = true) ∧
    (¬ gateFails env sig override .invalidType = true) ∧
    (¬ gateFails env sig override .missingSymbol = true) ∧
    (¬ gateFails env sig override .reentryInterval = true) := by
  unfold firstFailingGate at hg
  split_ifs at hg with h1 h2 h3 h4 h5 h6 h7
  all_goals first
    | exact ⟨h1, h2, h3, h4, h5, h6⟩
    | simp at hg

theorem exec_blocked_when_no_symbol_info (env : AppEnv) (sig : Signal)
    (override : Option String) (is_auto : Bool)
    (h1 : ¬ gateFails env sig override .timeFilter = true)
    (h2 : ¬ gateFails env sig override .news = true)
    (h3 : ¬ gateFails env sig override .connection = true)
    (h4 : ¬ gateFails env sig override .invalidType = true)
    (h5 : ¬ gateFails env sig override .missingSymbol = true)
    (h6 : ¬ gateFails env sig override .reentryInterval = true)
    (hsiv : get_symbol_info env.mt5 (sigSymbol sig) = none) :
    execute_trade_from_signal_data env (some sig) override is_auto =
      blockedResult env
        (guardedUpdate sig (srcPfx is_auto ++ ": No symbol info for " ++
          sigSymbol sig ++ " from MT5") false)
        (srcPfx is_auto ++ ": No symbol info for " ++ sigSymbol sig ++
          " from MT5") false := by
  have hA := gatePass_time h1
  have hB := gatePass_news h2
  have hC := gatePass_conn h3
  have hD := gatePass_invalidType h4
  have hE := gatePass_missingSymbol h5
  unfold execute_trade_from_signal_data
  dsimp only
  rw [if_neg (not_not_intro hA), if_neg hB, if_neg (not_not_intro hC),
    if_neg hD, if_neg hE]
  have hIntEq : (match env.last_trade_time (sigSymbol sig) with
      | some lastT =>
          decide (0 < env.settings.min_trade_interval_minutes (symKeyOf (sigSymbol sig))) &&
            decide (env.nowSec - lastT <
              env.settings.min_trade_interval_minutes (symKeyOf (sigSymbol sig)) * 60)
      | none => false) = gateFails env sig override Gate.reentryInterval := rfl
  rw [hIntEq, if_neg h6, hsiv]

theorem exec_sizing_imp_gates (env : AppEnv) (sig : Signal)
    (override : Option String) (is_auto : Bool)
    (h : (execute_trade_from_signal_data env (some sig) override is_auto).sizingDone = true) :
    firstFailingGate env sig override = none := by
  by_contra hne
  obtain ⟨g, hg⟩ : ∃ g, firstFailingGate env sig override = some g :=
    Option.ne_none_iff_exists'.mp hne
  by_cases hsp : g = Gate.spread
  · subst hsp
    rcases hsiv : env.mt5.symbolInfo (sigSymbol sig) with _ | si
    · obtain ⟨h1, h2, h3, h4, h5, h6⟩ := firstFailingGate_spread_pass hg
      have hb := exec_blocked_when_no_symbol_info env sig override is_auto
        h1 h2 h3 h4 h5 h6 (by simp [get_symbol_info, hsiv])
      rw [hb] at h
      simp [blockedResult] at h
    · have hb := exec_blocked_of_firstFailingGate env sig override is_auto _ hg
        (fun _ => by simp [hsiv])
      rw [hb] at h
      simp [blockedResult] at h
  · have hb := exec_blocked_of_firstFailingGate env sig override is_auto g hg
      (fun hc => absurd hc hsp)
    rw [hb] at h
    simp [blockedResult] at h

/-- C1: for every execution attempt (manual or automatic) on a provided
signal, the admission gates are evaluated in the fixed order trading-hours,
news, connectivity, signal validity (type, then symbol), re-entry interval,
spread; when the first failing gate is g (and, for the spread gate, the
symbol metadata is available so the spread gate is reached), the attempt
returns (false, g's reason), issues the signal-status update carrying that
same reason (`gateUpdate` reflecting the code's update guards), performs no
sizing and no submission, and leaves the last-trade map untouched (all
packaged in the `blockedResult` equation); sizing is reached only when all
gates pass, and submission only after sizing. -/
theorem gate_pipeline_order_and_short_circuit (env : AppEnv) (sig : Signal)
    (override : Option String) (is_auto : Bool) :
    (∀ g : Gate, firstFailingGate env sig override = some g →
      (g = Gate.spread → (env.mt5.symbolInfo (sigSymbol sig)).isSome = true) →
      execute_trade_from_signal_data env (some sig) override is_auto =
        blockedResult env
          (gateUpdate sig (gateNote env sig override (srcPfx is_auto) g) g)
          (gateNote env sig override (srcPfx is_auto) g) false) ∧
    ((execute_trade_from_signal_data env (some sig) override is_auto).sizingDone = true →
      firstFailingGate env sig override = none) ∧
    ((execute_trade_from_signal_data env (some sig) override is_auto).orderSent = true →
      (execute_trade_from_signal_data env (some sig) override is_auto).sizingDone = true) :=
  ⟨fun g hg hsi => exec_blocked_of_firstFailingGate env sig override is_auto g hg hsi,
   exec_sizing_imp_gates env sig override is_auto,
   (exec_shape env sig override is_auto).1⟩

/-- Settings for the pipeline witnesses: time filter disabled, news halt
enabled, auto-trade enabled. -/
def sPipe : Settings :=
  { sC9 with time_filter_enabled := false }

/-- Venue state for the pipeline witnesses: connected, with metadata and
ticks for symbol "SYM" and a venue that accepts orders. -/
def mPipe : Mt5 :=
  { connected := true,
    account := some { balance := 10000, currency := "USD" },
    symbolInfo := fun s =>
      if s = "SYM" then
        some { point := 1/100, digits := 2, spread := some 5,
               volume_min := 1/100, volume_max := some 100,
               volume_step := 1/100, volume_digits := some 2,
               trade_contract_size := 100, currency_profit := some "USD" }
      else none,
    tick := fun s =>
      if s = "SYM" then some { bid := 99, ask := 100, spread := some 5 }
      else none,
    order_check := some { retcode := 10009, comment := "ok" },
    order_send := some { retcode := 10009, deal := 7, order := 42, comment := "done" },
    last_error := (0, "") }

/-- Environment for the C1 witness: the news gate blocks (news disallows
trading and the halt flag is on). -/
def envC1 : AppEnv :=
  { settings := sPipe, mt5 := mPipe, trading_allowed_by_news := false,
    last_trade_time := fun _ => none, nowSec := 1000000, nowTod := 43200,
    tableSelection := TableSel.noneSelected, userConfirmsManual := true,
    tradeComment := "AutoB_test" }

/-- Signal used by the pipeline witnesses. -/
def sigPipe : Signal :=
  { time := some "2024-01-02 03:04:00", Symbol := some "SYM", signal := "buy",
    confidence := some 90, spread_pips := some 6, stop_loss_pips := none,
    take_profit_pips := none, close := some 100, notes := "" }

/-- Witness for `gate_pipeline_order_and_short_circuit`: with news blocking,
the attempt resolves to the news gate's blocked result. -/
theorem gate_pipeline_witness :
    execute_trade_from_signal_data envC1 (some sigPipe) none true =
      blockedResult envC1
        (gateUpdate sigPipe
          (gateNote envC1 sigPipe none (srcPfx true) Gate.news) Gate.news)
        (gateNote envC1 sigPipe none (srcPfx true) Gate.news) false :=
  (gate_pipeline_order_and_short_circuit envC1 sigPipe none true).1 Gate.news
    (by with_unfolding_all decide) (fun h => by cases h)

/-- C4: under the conditions in which an automatic signal would otherwise
execute (auto-trade enabled, venue connected, confidence meets the
threshold), a second automatic signal arriving while the global auto-trade
lock is held is immediately rejected with the "Lock active" note on the
signal and the execution pipeline is not invoked; the manual entry point
does not depend on the lock state at all; the manual path is a direct call
of the same `execute_trade_from_signal_data` pipeline, and in particular it
is blocked by the same admission gates. -/
theorem auto_trade_lock_mutual_exclusion (env : AppEnv) (sig : Signal)
    (lockHeld lockHeld' : Bool)
    (hen : env.settings.auto_trade_enabled = true)
    (hconn : env.mt5.connected = true)
    (hconf : (match sig.confidence with
              | some c => decide (env.settings.auto_trade_min_confidence ≤ c)
              | none => false) = true) :
    (lockHeld = true →
      auto_execute_model_signal_if_conditions_met env lockHeld sig =
        { executedCall := none,
          update := some { timeId := sig.time, symbol := sig.Symbol,
                           executed := false,
                           note := "AutoTrade: Lock active (another auto-trade in progress). Skipping current signal to prevent overlap." } }) ∧
    (executeSignalEntry env false lockHeld sig =
      executeSignalEntry env false lockHeld' sig) ∧
    (executeSignalEntry env false lockHeld sig =
      { executedCall :=
          some (execute_trade_from_signal_data env (some sig) none false),
        update := none }) ∧
    (∀ g : Gate, firstFailingGate env sig none = some g →
      (g = Gate.spread → (env.mt5.symbolInfo (sigSymbol sig)).isSome = true) →
      (executeSignalEntry env false lockHeld sig).executedCall =
        some (blockedResult env
          (gateUpdate sig (gateNote env sig none (srcPfx false) g) g)
          (gateNote env sig none (srcPfx false) g) false)) := by
  refine ⟨?_, rfl, rfl, ?_⟩
  · intro hl
    unfold auto_execute_model_signal_if_conditions_met
    rw [if_neg (not_not_intro hen), if_neg (not_not_intro hconn)]
    dsimp only
    rw [if_pos hconf, if_pos hl]
  · intro g hg hsi
    have hb := exec_blocked_of_firstFailingGate env sig none false g hg hsi
    simp [executeSignalEntry, hb]

/-- Environment for the C4 witness: all auto-trade preconditions hold. -/
def envC4 : AppEnv :=
  { settings := sPipe, mt5 := mPipe, trading_allowed_by_news := true,
    last_trade_time := fun _ => none, nowSec := 1000000, nowTod := 43200,
    tableSelection := TableSel.noneSelected, userConfirmsManual := true,
    tradeComment := "AutoB_test" }

/-- Witness for `auto_trade_lock_mutual_exclusion`: with the lock held, the
automatic path rejects the signal with the lock-active note and does not
call the pipeline. -/
theorem auto_trade_lock_witness :
    auto_execute_model_signal_if_conditions_met envC4 true sigPipe =
      { executedCall := none,
        update := some { timeId := sigPipe.time, symbol := sigPipe.Symbol,
                         executed := false,
                         note := "AutoTrade: Lock active (another auto-trade in progress). Skipping current signal to prevent overlap." } } :=
  (auto_trade_lock_mutual_exclusion envC4 sigPipe true true rfl rfl
    (by with_unfolding_all decide)).1 rfl

/-- C5: with the earlier gates passing, a signal for a symbol arriving while
less than the configured minimum interval (> 0) has elapsed since the last
successful order on that symbol is blocked with the re-entry note (which
reports the remaining wait); once the interval has elapsed the re-entry
gate no longer fails; the per-symbol last-trade-time map is never mutated
on a blocked or failed attempt, and on a successful order resolution it is
stamped at the traded symbol with the current instant. -/
theorem reentry_interval_gate (env : AppEnv) (sig : Signal)
    (override : Option String) (is_auto : Bool) (t : ℚ) :
    ((¬ gateFails env sig override .timeFilter = true) →
     (¬ gateFails env sig override .news = true) →
     (¬ gateFails env sig override .connection = true) →
     (¬ gateFails env sig override .invalidType = true) →
     (¬ gateFails env sig override .missingSymbol = true) →
     env.last_trade_time (sigSymbol sig) = some t →
     0 < effectiveMinInterval env.settings sig →
     env.nowSec - t < effectiveMinInterval env.settings sig * 60 →
     execute_trade_from_signal_data env (some sig) override is_auto =
       blockedResult env
         (gateUpdate sig
           (gateNote env sig override (srcPfx is_auto) Gate.reentryInterval)
           Gate.reentryInterval)
         (gateNote env sig override (srcPfx is_auto) Gate.reentryInterval)
         false) ∧
    (env.last_trade_time (sigSymbol sig) = some t →
     effectiveMinInterval env.settings sig * 60 ≤ env.nowSec - t →
     gateFails env sig override Gate.reentryInterval = false) ∧
    ((execute_trade_from_signal_data env (some sig) override is_auto).ok = false →
     (execute_trade_from_signal_data env (some sig) override is_auto).last_trade_time =
       env.last_trade_time) ∧
    ((execute_trade_from_signal_data env (some sig) override is_auto).ok = true →
     (execute_trade_from_signal_data env (some sig) override is_auto).last_trade_time =
       (fun s2 => if s2 = sigSymbol sig then some env.nowSec
                  else env.last_trade_time s2)) := by
  refine ⟨?_, ?_, (exec_shape env sig override is_auto).2.1, ?_⟩
  · intro h1 h2 h3 h4 h5 hlast hpos hwithin
    have h6 : gateFails env sig override Gate.reentryInterval = true := by
      simp [gateFails, hlast, hpos, hwithin]
    have hg : firstFailingGate env sig override = some Gate.reentryInterval := by
      unfold firstFailingGate
      rw [if_neg h1, if_neg h2, if_neg h3, if_neg h4, if_neg h5, if_pos h6]
    exact exec_blocked_of_firstFailingGate env sig override is_auto _ hg
      (fun h => by cases h)
  · intro hlast hele
    simp only [gateFails, hlast]
    rw [decide_eq_false (not_lt.mpr hele)]
    simp
  · intro hok
    obtain ⟨res, -, -, hmap, -⟩ := (exec_shape env sig override is_auto).2.2 hok
    exact hmap

/-- Environment for the C5 witness: a successful order on "SYM" happened
100 seconds ago while the configured interval is 15 minutes. -/
def envC5 : AppEnv :=
  { settings := sPipe, mt5 := mPipe, trading_allowed_by_news := true,
    last_trade_time := fun s => if s = "SYM" then some 999900 else none,
    nowSec := 1000000, nowTod := 43200,
    tableSelection := TableSel.noneSelected, userConfirmsManual := true,
    tradeComment := "AutoB_test" }

/-- Environment for the elapsed part of the C5 witness: the last order on
"SYM" is 100000 seconds old. -/
def envC5b : AppEnv :=
  { envC5 with last_trade_time := fun s => if s = "SYM" then some 900000 else none }

/-- Witness for `reentry_interval_gate`: 100 seconds after a successful
order on "SYM" (interval 15 minutes), the signal is blocked with the
re-entry note; after 100000 seconds the gate no longer fails. -/
theorem reentry_interval_gate_witness :
    (execute_trade_from_signal_data envC5 (some sigPipe) none true =
      blockedResult envC5
        (gateUpdate sigPipe
          (gateNote envC5 sigPipe none (srcPfx true) Gate.reentryInterval)
          Gate.reentryInterval)
        (gateNote envC5 sigPipe none (srcPfx true) Gate.reentryInterval)
        false) ∧
    gateFails envC5b sigPipe none Gate.reentryInterval = false :=
  ⟨(reentry_interval_gate envC5 sigPipe none true 999900).1
      (by with_unfolding_all decide) (by with_unfolding_all decide)
      (by with_unfolding_all decide) (by with_unfolding_all decide)
      (by with_unfolding_all decide) (by with_unfolding_all rfl)
      (by with_unfolding_all decide) (by with_unfolding_all decide),
   (reentry_interval_gate envC5b sigPipe none true 900000).2.1
      (by with_unfolding_all rfl) (by with_unfolding_all decide)⟩

/-- C8 (amended): once a buy order reaches the submission step (connected,
tick available, pre-trade validation done), a null/absent venue result is a
failure carrying the venue's last error; with a result object, the
submission succeeds iff the result code is "done" (10009) or "placed"
(10008), and every other code maps through the static lookup table into a
human-readable failure message; and the caller's success side effects — the
per-symbol last-trade timestamp update and the signal's executed=true
persistence — happen exactly on attempts that resolve to success with a
positive venue order id.  (The original claim that the side effects follow
from success alone is refuted by `order_success_requires_positive_id`: a
"done" result carrying order id 0 is re-classified as a failure by the
caller, which leaves the timestamp untouched and persists executed=false.) -/
theorem order_result_resolution (m : Mt5) (symbol : String)
    (volume sl tp : ℚ) (comment : String) (tick : Tick)
    (chk : OrderCheckResult)
    (hconn : m.connected = true) (htick : m.tick symbol = some tick)
    (hask : 0 < tick.ask)
    (hchk : m.order_check = some chk)
    (hchkr : chk.retcode = TRADE_RETCODE_DONE) :
    (m.order_send = none →
      send_order m symbol "buy" volume none sl tp comment =
        (false, SendRet.msg ("Order send failed: " ++
          get_retcode_description m.last_error.1 ++ " (" ++
          m.last_error.2 ++ ")"))) ∧
    (∀ r : OrderSendResult, m.order_send = some r →
      ((send_order m symbol "buy" volume none sl tp comment).1 = true ↔
        (r.retcode = TRADE_RETCODE_DONE ∨ r.retcode = TRADE_RETCODE_PLACED)) ∧
      (¬ (r.retcode = TRADE_RETCODE_DONE ∨ r.retcode = TRADE_RETCODE_PLACED) →
        send_order m symbol "buy" volume none sl tp comment =
          (false, SendRet.msg ("Order send failed: " ++ r.comment ++
            " (Code: " ++ toString r.retcode ++ " - " ++
            get_retcode_description r.retcode ++ ")")))) ∧
    (∀ (env : AppEnv) (sig : Signal) (override : Option String) (is_auto : Bool),
      (execute_trade_from_signal_data env (some sig) override is_auto).ok = true →
      ∃ res : OrderSendResult,
        (execute_trade_from_signal_data env (some sig) override is_auto).ret =
          SendRet.res res ∧
        0 < res.order ∧
        (execute_trade_from_signal_data env (some sig) override is_auto).last_trade_time =
          (fun s2 => if s2 = sigSymbol sig then some env.nowSec
                     else env.last_trade_time s2) ∧
        (execute_trade_from_signal_data env (some sig) override is_auto).sigUpdate =
          guardedUpdate sig (srcPfx is_auto ++ ": Executed. Order ID: " ++
            toString res.order) true) := by
  have hbuy : ("buy").toLower = "buy" := by with_unfolding_all rfl
  have hkey : send_order m symbol "buy" volume none sl tp comment =
      (match m.order_send with
       | none =>
           (false, SendRet.msg ("Order send failed: " ++
             get_retcode_description m.last_error.1 ++ " (" ++
             m.last_error.2 ++ ")"))
       | some result =>
           if result.retcode = TRADE_RETCODE_DONE ∨
               result.retcode = TRADE_RETCODE_PLACED then
             (true, SendRet.res result)
           else
             (false, SendRet.msg ("Order send failed: " ++ result.comment ++
               " (Code: " ++ toString result.retcode ++ " - " ++
               get_retcode_description result.retcode ++ ")"))) := by
    unfold send_order
    rw [if_neg (not_not_intro hconn), htick]
    dsimp only
    rw [if_pos (Or.inl hbuy)]
    simp only [hbuy, eq_self_iff_true, if_true]
    rw [if_neg (not_le.mpr hask), hchk]
    dsimp only
    rw [if_neg (by simp [hchkr])]
  refine ⟨?_, ?_, ?_⟩
  · intro hn
    rw [hkey, hn]
  · intro r hr
    rw [hkey, hr]
    dsimp only
    constructor
    · by_cases hrc : r.retcode = TRADE_RETCODE_DONE ∨ r.retcode = TRADE_RETCODE_PLACED
      · rw [if_pos hrc]
        simp [hrc]
      · rw [if_neg hrc]
        simp [hrc]
    · intro hnrc
      rw [if_neg hnrc]
  · intro env sig override is_auto hok
    obtain ⟨res, ha, hb, hc, hd, -, -⟩ := (exec_shape env sig override is_auto).2.2 hok
    exact ⟨res, ha, hb, hc, hd⟩

/-- Venue state for the C8 counterexample: order_send reports "done" but
with venue order id 0. -/
def mC8 : Mt5 :=
  { mPipe with order_send := some { retcode := 10009, deal := 7, order := 0, comment := "" } }

/-- Environment for the C8 counterexample: every gate passes and the order
is submitted. -/
def envC8 : AppEnv :=
  { settings := sPipe, mt5 := mC8, trading_allowed_by_news := true,
    last_trade_time := fun _ => none, nowSec := 1000000, nowTod := 43200,
    tableSelection := TableSel.noneSelected, userConfirmsManual := true,
    tradeComment := "AutoB_test" }

/-- C8 counterexample: the venue resolves the submission as success
(retcode "done", so `send_order` returns true), yet because the result
carries order id 0 the caller treats the attempt as failed: no last-trade
timestamp is recorded for the symbol and the signal is persisted with
executed=false — refuting the claim that the side effects follow from the
result code alone. -/
theorem order_success_requires_positive_id :
    (send_order mC8 "SYM" "buy" 2 none 0 0 "AutoB_test").1 = true ∧
    (execute_trade_from_signal_data envC8 (some sigPipe) none true).orderSent = true ∧
    (execute_trade_from_signal_data envC8 (some sigPipe) none true).ok = false ∧
    (execute_trade_from_signal_data envC8 (some sigPipe) none true).last_trade_time "SYM" = none ∧
    (execute_trade_from_signal_data envC8 (some sigPipe) none true).sigUpdate =
      some { timeId := some "2024-01-02 03:04:00", symbol := some "SYM",
             executed := false,
             note := "AutoTrade: Failed - Unknown order send error" } := by
  with_unfolding_all decide

/-- Witness for `order_result_resolution`: with the venue answering
"done" (10009), the submission resolves to success. -/
theorem order_result_resolution_witness :
    (send_order mPipe "SYM" "buy" 2 none 0 0 "c").1 = true := by
  have h := ((order_result_resolution mPipe "SYM" 2 0 0 "c"
      { bid := 99, ask := 100, spread := some 5 }
      { retcode := 10009, comment := "ok" }
      rfl (by with_unfolding_all rfl) (by norm_num) rfl rfl).2.1
      { retcode := 10009, deal := 7, order := 42, comment := "done" }
      (by with_unfolding_all rfl)).1
  rw [h]
  exact Or.inl rfl
